import Mathlib

/-!
Verification development for the National-Defense-Grid simulation core.

The definitions below are shallow embeddings of the TypeScript source:
* `checkPolygon` / `isInsideCountry` embed the ray-casting containment test
  (`utils` module).  Polygon-ring coordinates and grid sample points are
  rational numbers, so these definitions are executable.
* `distanceTo` embeds Leaflet's haversine distance (`L.LatLng.distanceTo`,
  spherical radius 6371000 m); `atan2` is the usual piecewise-arctangent
  embedding of `Math.atan2`.
* `calculateIntercept`, `stepThreat`, `launchThreat` and the `SimState`
  operations embed the kinematic engine of `AttackSimulator.tsx`;
  `Math.cos (Math.atan2 y x)` appears as `Real.cos (atan2 y x)` etc.
* `calculateScores` and `mutateDeployment` embed the scoring engine and the
  deployment mutation operator; `runBatchTest` embeds the batch evaluator of
  the stress-test module.  `Math.random()` is embedded as an explicit stream
  `rng : ℕ → ℝ` consumed in source order.

Display-only record fields (names, costs, colors, log strings, explosion
markers) are omitted; every field consulted by the embedded control flow is
kept.
-/

namespace NDG

/-- Role of a defense system (source `SystemRole`). -/
inductive Role where
  | RADAR
  | INTERCEPTOR
deriving DecidableEq, Repr

/-- Threat status (source type `'MOVING' | 'INTERCEPTED' | 'IMPACTED'`). -/
inductive Status where
  | MOVING
  | INTERCEPTED
  | IMPACTED
deriving DecidableEq, Repr

/-- A latitude/longitude pair (`L.LatLng`). -/
structure LatLng where
  lat : ℝ
  lng : ℝ

/-- A defense system record (source `DefenseSystem`); display-only fields
omitted.  `isActive` is `Option Bool` because the source field is optional:
the source tests `sys.isActive !== false`, which is `isActive ≠ some false`
here. -/
structure DefenseSystem where
  id : String
  lat : ℝ
  lng : ℝ
  range : ℝ
  role : Role
  shotSpeed : ℝ
  isActive : Option Bool

/-- A threat record (source `Threat`); display-only fields omitted. -/
structure Threat where
  id : String
  start : LatLng
  target : LatLng
  current : LatLng
  status : Status
  speed : ℝ
  interceptorId : Option String
  interceptorPos : Option LatLng
  predictedInterceptPoint : Option LatLng
  detectedByRadarId : Option String

/-! ## Ray-casting containment test (rational coordinates)

GeoJSON geometry: a `Polygon` is a list of rings (outer ring first, then
holes); a `MultiPolygon` is a list of such ring lists.  A ring is a list of
`(lng, lat)` vertex pairs. -/

/-- One polygon ring: `(x, y) = (lng, lat)` vertices. -/
abbrev Ring := List (ℚ × ℚ)

/-- A GeoJSON feature geometry. -/
inductive Geometry where
  | polygon (rings : List Ring)
  | multiPolygon (polys : List (List Ring))

/-- The feature list of a GeoJSON `FeatureCollection`. -/
abbrev GeoData := List Geometry

/-- The edge pairs `(v i, v j)` visited by the source loop
`for (i = 0, j = n - 1; i < n; j = i++)`: `(v 0, v (n-1)), (v 1, v 0), …`. -/
def cyclicPairs (l : List (ℚ × ℚ)) : List ((ℚ × ℚ) × (ℚ × ℚ)) :=
  match l.getLast? with
  | none => []
  | some last => l.zip (last :: l.dropLast)

/-- One edge test of the ray-casting loop:
`((yi > y) !== (yj > y)) && (x < (xj - xi) * (y - yi) / (yj - yi) + xi)`. -/
def edgeCross (x y xi yi xj yj : ℚ) : Bool :=
  (decide (yi > y) != decide (yj > y)) &&
    decide (x < (xj - xi) * (y - yi) / (yj - yi) + xi)

/-- Source `checkPolygon(x, y, polygon)`: ray-casting parity over one ring. -/
def checkPolygon (x y : ℚ) (polygon : Ring) : Bool :=
  (cyclicPairs polygon).foldl
    (fun isInside e =>
      if edgeCross x y e.1.1 e.1.2 e.2.1 e.2.2 then !isInside else isInside)
    false

/-- The first ring of a ring list (source `coordinates[0]` / `poly[0]`);
the empty-ring default stands in for the out-of-range access on malformed
data. -/
def firstRing (rings : List Ring) : Ring :=
  rings.headD []

/-- The first ring of each polygon component of one geometry: for a
`Polygon` the source reads `geometry.coordinates[0]`, for a `MultiPolygon`
it reads `poly[0]` of each member polygon. -/
def outerRingsOfGeom (g : Geometry) : List Ring :=
  match g with
  | .polygon rings => [firstRing rings]
  | .multiPolygon polys => polys.map (fun rings => firstRing rings)

/-- All first rings, in feature order. -/
def outerRingsOf (features : GeoData) : List Ring :=
  features.flatMap outerRingsOfGeom

/-- The per-feature body of the `isInsideCountry` loop: toggle `inside`
once for each polygon component whose first ring contains the point. -/
def featureToggle (lng lat : ℚ) (inside : Bool) (g : Geometry) : Bool :=
  match g with
  | .polygon rings =>
    if checkPolygon lng lat (firstRing rings) then !inside else inside
  | .multiPolygon polys =>
    polys.foldl
      (fun acc rings =>
        if checkPolygon lng lat (firstRing rings) then !acc else acc)
      inside

/-- Source `isInsideCountry(lat, lng, geoData)`: with no geo data, always
`true`; otherwise fold the toggle over all features starting from
`inside = false`. -/
def isInsideCountry (lat lng : ℚ) (geoData : Option GeoData) : Bool :=
  match geoData with
  | none => true
  | some features => features.foldl (featureToggle lng lat) false

/-! ## Real geometry: `Math.atan2`, Leaflet distances -/

noncomputable section

open scoped Classical

/-- `Math.atan2 y x` (piecewise arctangent; signed-zero distinctions of
floats collapse to the plain-zero case). -/
def atan2 (y x : ℝ) : ℝ :=
  if 0 < x then Real.arctan (y / x)
  else if x < 0 then
    (if 0 ≤ y then Real.arctan (y / x) + Real.pi
     else Real.arctan (y / x) - Real.pi)
  else
    (if 0 < y then Real.pi / 2
     else if y < 0 then -(Real.pi / 2)
     else 0)

/-- Leaflet's `CRS.Earth.R` (meters). -/
def EARTH_R : ℝ := 6371000

/-- Leaflet's `L.LatLng.distanceTo` (haversine on a sphere of radius
`EARTH_R`, in meters). -/
def distanceTo (p q : LatLng) : ℝ :=
  let rad := Real.pi / 180
  let lat1 := p.lat * rad
  let lat2 := q.lat * rad
  let sinDLat := Real.sin ((q.lat - p.lat) * rad / 2)
  let sinDLon := Real.sin ((q.lng - p.lng) * rad / 2)
  let a := sinDLat * sinDLat
    + Real.cos lat1 * Real.cos lat2 * sinDLon * sinDLon
  EARTH_R * (2 * atan2 (Real.sqrt a) (Real.sqrt (1 - a)))

/-- A planar point (`L.Point`); the batch evaluator builds these as
`(x, y) = (lng, lat)`. -/
structure Pt where
  x : ℝ
  y : ℝ

/-- Leaflet's `_sqClosestPointOnSegment(p, p1, p2, true)`: squared distance
from `p` to the closest point of segment `p1`-`p2`. -/
def sqSegDist (p p1 p2 : Pt) : ℝ :=
  let x := p1.x
  let y := p1.y
  let dx := p2.x - x
  let dy := p2.y - y
  let dot := dx * dx + dy * dy
  let c : Pt :=
    if dot > 0 then
      let t := ((p.x - x) * dx + (p.y - y) * dy) / dot
      if t > 1 then ⟨p2.x, p2.y⟩
      else if t > 0 then ⟨x + dx * t, y + dy * t⟩
      else ⟨x, y⟩
    else ⟨x, y⟩
  (p.x - c.x) * (p.x - c.x) + (p.y - c.y) * (p.y - c.y)

/-- Leaflet's `L.LineUtil.pointToSegmentDistance`. -/
def pointToSegmentDistance (p p1 p2 : Pt) : ℝ :=
  Real.sqrt (sqSegDist p p1 p2)

/-! ## Intercept-point prediction (`calculateIntercept`) -/

/-- JS `shotSpeed || d`: the numeric `||` turns `0` (and a missing value)
into the default. -/
def orDefault (s d : ℝ) : ℝ :=
  if s = 0 then d else s

/-- The threat's velocity vector `(vx, vy)`:
`angle = atan2(Δlat, Δlng)`, `vx = cos(angle)·Vt`, `vy = sin(angle)·Vt`. -/
def interVelocity (threat : Threat) : ℝ × ℝ :=
  let angle := atan2 (threat.target.lat - threat.start.lat)
    (threat.target.lng - threat.start.lng)
  (Real.cos angle * threat.speed, Real.sin angle * threat.speed)

/-- `Δ = threat.current − interceptor_base` as `(dx, dy)` (lng, lat). -/
def interDelta (threat : Threat) (interceptor : DefenseSystem) : ℝ × ℝ :=
  (threat.current.lng - interceptor.lng, threat.current.lat - interceptor.lat)

/-- Quadratic leading coefficient `a = vx² + vy² − Vi²`. -/
def interA (threat : Threat) (interceptor : DefenseSystem) : ℝ :=
  let v := interVelocity threat
  let Vi := orDefault interceptor.shotSpeed 0.22
  v.1 * v.1 + v.2 * v.2 - Vi * Vi

/-- Quadratic coefficient `b = 2(vx·dx + vy·dy)`. -/
def interB (threat : Threat) (interceptor : DefenseSystem) : ℝ :=
  let v := interVelocity threat
  let d := interDelta threat interceptor
  2 * (v.1 * d.1 + v.2 * d.2)

/-- Quadratic constant `c = dx² + dy²`. -/
def interC (threat : Threat) (interceptor : DefenseSystem) : ℝ :=
  let d := interDelta threat interceptor
  d.1 * d.1 + d.2 * d.2

/-- Discriminant `b² − 4ac`. -/
def interDisc (threat : Threat) (interceptor : DefenseSystem) : ℝ :=
  interB threat interceptor * interB threat interceptor
    - 4 * interA threat interceptor * interC threat interceptor

/-- The selected root `t = (−b − √disc) / (2a)`. -/
def interT (threat : Threat) (interceptor : DefenseSystem) : ℝ :=
  (-interB threat interceptor - Real.sqrt (interDisc threat interceptor))
    / (2 * interA threat interceptor)

/-- Source `calculateIntercept(threat, interceptor)`. -/
def calculateIntercept (threat : Threat) (interceptor : DefenseSystem) :
    Option LatLng :=
  if interDisc threat interceptor < 0 then none
  else if interT threat interceptor < 0 then none
  else some ⟨threat.current.lat + (interVelocity threat).2 * interT threat interceptor,
             threat.current.lng + (interVelocity threat).1 * interT threat interceptor⟩

/-! ## Kinematic simulation (`updateSimulation` inner loop) -/

/-- `systems.filter(sys => sys.role === 'RADAR' && sys.isActive !== false)`. -/
def activeRadars (systems : List DefenseSystem) : List DefenseSystem :=
  systems.filter fun s => decide (s.role = Role.RADAR ∧ s.isActive ≠ some false)

/-- `systems.filter(sys => sys.role === 'INTERCEPTOR' && sys.isActive !== false)`. -/
def activeInterceptors (systems : List DefenseSystem) : List DefenseSystem :=
  systems.filter fun s =>
    decide (s.role = Role.INTERCEPTOR ∧ s.isActive ≠ some false)

/-- Per-sub-step straight-line advance of a MOVING threat. -/
def nextThreatPos (dt : ℝ) (threat : Threat) : LatLng :=
  let angle := atan2 (threat.target.lat - threat.start.lat)
    (threat.target.lng - threat.start.lng)
  ⟨threat.current.lat + Real.sin angle * threat.speed * dt,
   threat.current.lng + Real.cos angle * threat.speed * dt⟩

/-- `activeRadars.find(r => nextPos.distanceTo(...) / 1000 <= r.range)`. -/
def findDetectingRadar (systems : List DefenseSystem) (nextPos : LatLng) :
    Option DefenseSystem :=
  (activeRadars systems).find? fun r =>
    decide (distanceTo nextPos ⟨r.lat, r.lng⟩ / 1000 ≤ r.range)

/-- `.sort((a, b) => (b.shotSpeed || 0) - (a.shotSpeed || 0))`:
stable sort by descending shot speed. -/
def sortByShotSpeedDesc (l : List DefenseSystem) : List DefenseSystem :=
  l.mergeSort fun a b => decide (b.shotSpeed ≤ a.shotSpeed)

/-- The candidate loop of the interceptor assignment: the first candidate
with a predicted intercept point within its own range is selected. -/
def pickInterceptor (threat : Threat) :
    List DefenseSystem → Option (DefenseSystem × LatLng)
  | [] => none
  | i :: rest =>
    match calculateIntercept threat i with
    | some predictedPos =>
      if distanceTo predictedPos ⟨i.lat, i.lng⟩ / 1000 ≤ i.range then
        some (i, predictedPos)
      else pickInterceptor threat rest
    | none => pickInterceptor threat rest

/-- The detection and interceptor-assignment phase of one sub-step. -/
def detectAssign (systems : List DefenseSystem) (threat : Threat)
    (nextPos : LatLng) : Threat :=
  match findDetectingRadar systems nextPos with
  | none => threat
  | some radar =>
    let th := { threat with detectedByRadarId := some radar.id }
    if th.interceptorId = none then
      match pickInterceptor th (sortByShotSpeedDesc (activeInterceptors systems)) with
      | some (interceptor, predictedPos) =>
        { th with
            interceptorId := some interceptor.id,
            interceptorPos := some (⟨interceptor.lat, interceptor.lng⟩ : LatLng),
            predictedInterceptPoint := some predictedPos }
      | none => th
    else th

/-- `systems.find(sys => sys.id === threat.interceptorId)?.shotSpeed || 0.22`;
no active-flag check here. -/
def pursuitShotSpeed (systems : List DefenseSystem) (iid : String) : ℝ :=
  match systems.find? (fun s => decide (s.id = iid)) with
  | some s => orDefault s.shotSpeed 0.22
  | none => 0.22

/-- `900 + (currentSpeed > 50 ? currentSpeed * 2 : 0) + threat.speed * 20000`. -/
def killRadiusOf (currentSpeed speed : ℝ) : ℝ :=
  900 + (if currentSpeed > 50 then currentSpeed * 2 else 0) + speed * 20000

/-- `600 + (currentSpeed > 500 ? currentSpeed : 0)`. -/
def impactThresholdOf (currentSpeed : ℝ) : ℝ :=
  600 + (if currentSpeed > 500 then currentSpeed else 0)

/-- Pursuit advance of the bound interceptor toward `targetGoal`. -/
def pursuitNextPos (ip targetGoal : LatLng) (shotSpeed dt : ℝ) : LatLng :=
  let iAngle := atan2 (targetGoal.lat - ip.lat) (targetGoal.lng - ip.lng)
  ⟨ip.lat + Real.sin iAngle * shotSpeed * dt,
   ip.lng + Real.cos iAngle * shotSpeed * dt⟩

/-- Observable outcome of one threat sub-step (drives the counters). -/
inductive SimEvent where
  | noEvent
  | intercepted
  | impacted
deriving DecidableEq, Repr

/-- The impact check at the end of a sub-step. -/
def resolveImpact (currentSpeed : ℝ) (nextPos : LatLng) (t : Threat) :
    Threat × SimEvent :=
  if distanceTo nextPos t.target < impactThresholdOf currentSpeed then
    ({ t with status := Status.IMPACTED, current := t.target },
      SimEvent.impacted)
  else ({ t with current := nextPos }, SimEvent.noEvent)

/-- One sub-step of `updateSimulation` for a single threat: advance, detect,
assign, pursue, kill check (first), impact check (second).  The in-place
mutations of the source are threaded sequentially through the record. -/
def stepThreat (systems : List DefenseSystem) (currentSpeed dt : ℝ)
    (threat : Threat) : Threat × SimEvent :=
  if threat.status ≠ Status.MOVING then (threat, SimEvent.noEvent)
  else
    let nextPos := nextThreatPos dt threat
    let t1 := detectAssign systems threat nextPos
    match t1.interceptorId, t1.interceptorPos with
    | some iid, some ip =>
      let targetGoal := t1.predictedInterceptPoint.getD nextPos
      let shotSpeed := pursuitShotSpeed systems iid
      let nextIPos := pursuitNextPos ip targetGoal shotSpeed dt
      if distanceTo nextIPos nextPos < killRadiusOf currentSpeed threat.speed
      then
        ({ t1 with status := Status.INTERCEPTED, current := nextPos },
          SimEvent.intercepted)
      else
        resolveImpact currentSpeed nextPos
          { t1 with interceptorPos := some nextIPos }
    | _, _ => resolveImpact currentSpeed nextPos t1

/-- Running counters (source `stats` state). -/
structure SimStats where
  launched : ℕ
  intercepted : ℕ
  impacted : ℕ

/-- The simulation state: threat list plus counters. -/
structure SimState where
  threats : List Threat
  stats : SimStats

/-- State after activation/reset: no threats, zero counters. -/
def initState : SimState :=
  ⟨[], ⟨0, 0, 0⟩⟩

/-- Source `launchThreat`: append a MOVING threat at its start position and
bump the launched counter. -/
def launchThreat (idStr : String) (start target : LatLng) (speed : ℝ)
    (s : SimState) : SimState :=
  { threats := s.threats ++
      [⟨idStr, start, target, start, Status.MOVING, speed,
        none, none, none, none⟩],
    stats := { s.stats with launched := s.stats.launched + 1 } }

/-- Number of results with the given event. -/
def countEvents (ev : SimEvent) (l : List (Threat × SimEvent)) : ℕ :=
  l.countP fun p => decide (p.2 = ev)

/-- One sub-step over the whole threat list, with counter updates. -/
def subStep (systems : List DefenseSystem) (currentSpeed dt : ℝ)
    (s : SimState) : SimState :=
  let results := s.threats.map (stepThreat systems currentSpeed dt)
  { threats := results.map Prod.fst,
    stats :=
      { launched := s.stats.launched,
        intercepted := s.stats.intercepted
          + countEvents SimEvent.intercepted results,
        impacted := s.stats.impacted
          + countEvents SimEvent.impacted results } }

/-- Iterated sub-steps (the `for (let s = 0; s < substeps; s++)` loop). -/
def subStepIter (systems : List DefenseSystem) (currentSpeed dt : ℝ) :
    ℕ → SimState → SimState
  | 0, s => s
  | n + 1, s =>
    subStepIter systems currentSpeed dt n (subStep systems currentSpeed dt s)

/-- One animation-frame tick:
`substeps = min(1000, ceil(currentSpeed * 2.5))`,
`dt = rawDeltaTime * currentSpeed / substeps`. -/
def tick (systems : List DefenseSystem) (rawDeltaTime currentSpeed : ℝ)
    (s : SimState) : SimState :=
  let substeps := min 1000 (Nat.ceil (currentSpeed * 2.5))
  let dt := rawDeltaTime * currentSpeed / (substeps : ℝ)
  subStepIter systems currentSpeed dt substeps s

/-- States reachable from a reset by launches and ticks. -/
inductive Reachable : SimState → Prop where
  | start : Reachable initState
  | step_launch : ∀ s idStr startPos targetPos speed, Reachable s →
      Reachable (launchThreat idStr startPos targetPos speed s)
  | step_tick : ∀ s systems rawDeltaTime currentSpeed, Reachable s →
      Reachable (tick systems rawDeltaTime currentSpeed s)

/-- Number of currently MOVING threats. -/
def movingCount (s : SimState) : ℕ :=
  s.threats.countP fun t => decide (t.status = Status.MOVING)

/-! ## Coverage scoring (`calculateScores`) -/

/-- Source `SAMPLING_POINTS_COUNT`. -/
def SAMPLING_POINTS_COUNT : ℕ := 3600

/-- Source `SL_BOUNDS` (rationals, cast to ℝ where needed). -/
def SL_minLat : ℚ := 5.8

def SL_maxLat : ℚ := 9.9

def SL_minLng : ℚ := 79.5

def SL_maxLng : ℚ := 82.0

/-- `Math.floor(Math.sqrt(SAMPLING_POINTS_COUNT))`. -/
def gridSize : ℕ := Nat.sqrt SAMPLING_POINTS_COUNT

/-- Grid cell height `(maxLat - minLat) / gridSize`. -/
def latStep : ℚ := (SL_maxLat - SL_minLat) / gridSize

/-- Grid cell width `(maxLng - minLng) / gridSize`. -/
def lngStep : ℚ := (SL_maxLng - SL_minLng) / gridSize

/-- Sample latitude `minLat + i*latStep + latStep/2` of row `i`. -/
def sampleLat (i : ℕ) : ℚ := SL_minLat + i * latStep + latStep / 2

/-- Sample longitude of column `j`. -/
def sampleLng (j : ℕ) : ℚ := SL_minLng + j * lngStep + lngStep / 2

/-- The sample point `L.latLng(rLat, rLng)` of cell `(i, j)`. -/
def samplePoint (i j : ℕ) : LatLng :=
  ⟨((sampleLat i : ℚ) : ℝ), ((sampleLng j : ℚ) : ℝ)⟩

/-- Land/sea classification of cell `(i, j)`. -/
def isLandAt (g : GeoData) (i j : ℕ) : Bool :=
  isInsideCountry (sampleLat i) (sampleLng j) (some g)

/-- A point is covered by some unit of the list (the source loops and
breaks at the first unit in range, so only this "any" is observable). -/
def coveredBy (units : List DefenseSystem) (point : LatLng) : Prop :=
  ∃ u ∈ units, distanceTo point ⟨u.lat, u.lng⟩ / 1000 ≤ u.range

/-- A weighted point of interest (source `CITIES` entry). -/
structure City where
  name : String
  lat : ℝ
  lng : ℝ
  weight : ℝ

/-- Source `CITIES`. -/
def CITIES : List City :=
  [⟨"Colombo", 6.9271, 79.8612, 5⟩,
   ⟨"Kandy", 7.2906, 80.6337, 3⟩,
   ⟨"Galle", 6.0535, 80.2210, 2⟩,
   ⟨"Jaffna", 9.6615, 80.0104, 2⟩,
   ⟨"Trincomalee", 8.5873, 81.2152, 2⟩,
   ⟨"Anuradhapura", 8.3114, 80.4037, 3.5⟩,
   ⟨"Batticaloa", 7.7102, 81.6924, 1.5⟩,
   ⟨"Matara", 5.9549, 80.5550, 2.5⟩,
   ⟨"Ratnapura", 6.6828, 80.3992, 1.5⟩,
   ⟨"Kurunegala", 7.4818, 80.3609, 1.5⟩,
   ⟨"Pottuvil", 6.8724, 81.8210, 1.2⟩]

/-- Total land sample points. -/
def landTotal (g : GeoData) : ℕ :=
  ∑ i ∈ Finset.range gridSize, ∑ j ∈ Finset.range gridSize,
    if isLandAt g i j then 1 else 0

/-- Total sea sample points. -/
def seaTotal (g : GeoData) : ℕ :=
  ∑ i ∈ Finset.range gridSize, ∑ j ∈ Finset.range gridSize,
    if isLandAt g i j then 0 else 1

/-- Land points covered by an active radar (regardless of interceptors). -/
def radarLandCount (systems : List DefenseSystem) (g : GeoData) : ℕ :=
  ∑ i ∈ Finset.range gridSize, ∑ j ∈ Finset.range gridSize,
    if isLandAt g i j ∧ coveredBy (activeRadars systems) (samplePoint i j)
    then 1 else 0

/-- Land points covered by an active interceptor (regardless of radars). -/
def attackLandCount (systems : List DefenseSystem) (g : GeoData) : ℕ :=
  ∑ i ∈ Finset.range gridSize, ∑ j ∈ Finset.range gridSize,
    if isLandAt g i j
      ∧ coveredBy (activeInterceptors systems) (samplePoint i j)
    then 1 else 0

/-- Land points covered by both a radar and an interceptor. -/
def combinedLandCount (systems : List DefenseSystem) (g : GeoData) : ℕ :=
  ∑ i ∈ Finset.range gridSize, ∑ j ∈ Finset.range gridSize,
    if isLandAt g i j ∧ coveredBy (activeRadars systems) (samplePoint i j)
      ∧ coveredBy (activeInterceptors systems) (samplePoint i j)
    then 1 else 0

/-- Sea points covered by both a radar and an interceptor. -/
def combinedSeaCount (systems : List DefenseSystem) (g : GeoData) : ℕ :=
  ∑ i ∈ Finset.range gridSize, ∑ j ∈ Finset.range gridSize,
    if ¬ isLandAt g i j ∧ coveredBy (activeRadars systems) (samplePoint i j)
      ∧ coveredBy (activeInterceptors systems) (samplePoint i j)
    then 1 else 0

/-- Sum of all city weights. -/
def totalCityWeight : ℝ :=
  (CITIES.map City.weight).sum

/-- Accumulated weight of cities covered by both a radar and an
interceptor. -/
def cityScore (systems : List DefenseSystem) : ℝ :=
  (CITIES.map fun c =>
    if coveredBy (activeRadars systems) ⟨c.lat, c.lng⟩
      ∧ coveredBy (activeInterceptors systems) ⟨c.lat, c.lng⟩
    then c.weight else 0).sum

/-- The five percentage metrics (source return object of
`calculateScores`); `attackLand` is the interceptor-land metric. -/
structure ScoreResult where
  combinedLand : ℝ
  combinedCities : ℝ
  combinedSea : ℝ
  radarLand : ℝ
  attackLand : ℝ

/-- Source `calculateScores(defenseSystems, geoData)`. -/
def calculateScores (defenseSystems : List DefenseSystem)
    (geoData : Option GeoData) : ScoreResult :=
  match geoData with
  | none => ⟨0, 0, 0, 0, 0⟩
  | some g =>
    { combinedLand :=
        if 0 < landTotal g
        then (combinedLandCount defenseSystems g : ℝ) / (landTotal g : ℝ) * 100
        else 0,
      combinedCities :=
        if 0 < totalCityWeight
        then cityScore defenseSystems / totalCityWeight * 100
        else 0,
      combinedSea :=
        if 0 < seaTotal g
        then (combinedSeaCount defenseSystems g : ℝ) / (seaTotal g : ℝ) * 100
        else 0,
      radarLand :=
        if 0 < landTotal g
        then (radarLandCount defenseSystems g : ℝ) / (landTotal g : ℝ) * 100
        else 0,
      attackLand :=
        if 0 < landTotal g
        then (attackLandCount defenseSystems g : ℝ) / (landTotal g : ℝ) * 100
        else 0 }

/-! ## Deployment mutation (`mutateDeployment`) -/

/-- The perturb-and-clamp branch of the mutation operator. -/
def perturbUnit (sys : DefenseSystem) (forceHighEntropy : Bool)
    (r1 r2 : ℝ) : DefenseSystem :=
  let moveAmount : ℝ := if sys.role = Role.RADAR then 1.5 else 0.45
  let entropyMultiplier : ℝ := if forceHighEntropy then 2.5 else 1.0
  let newLat := sys.lat + (r1 - 0.5) * moveAmount * entropyMultiplier
  let newLng := sys.lng + (r2 - 0.5) * moveAmount * entropyMultiplier
  { sys with
      lat := max ((SL_minLat : ℚ) : ℝ) (min ((SL_maxLat : ℚ) : ℝ) newLat),
      lng := max ((SL_minLng : ℚ) : ℝ) (min ((SL_maxLng : ℚ) : ℝ) newLng) }

/-- Mutation of one unit; `idx` is the position in the random stream, and
the returned index accounts for every `Math.random()` call the source
makes on this unit. -/
def mutateUnit (radarSecured forceHighEntropy : Bool) (rng : ℕ → ℝ)
    (sys : DefenseSystem) (idx : ℕ) : DefenseSystem × ℕ :=
  if forceHighEntropy = false ∧ radarSecured = true ∧ sys.role = Role.RADAR
  then (sys, idx)
  else
    let mutationChance : ℝ := if forceHighEntropy then 0.45 else 0.25
    if rng idx > mutationChance then (sys, idx + 1)
    else if forceHighEntropy then
      if rng (idx + 1) < 0.08 then
        ({ sys with
            lat := rng (idx + 2) * (((SL_maxLat : ℚ) : ℝ) - ((SL_minLat : ℚ) : ℝ))
              + ((SL_minLat : ℚ) : ℝ),
            lng := rng (idx + 3) * (((SL_maxLng : ℚ) : ℝ) - ((SL_minLng : ℚ) : ℝ))
              + ((SL_minLng : ℚ) : ℝ) }, idx + 4)
      else (perturbUnit sys forceHighEntropy (rng (idx + 2)) (rng (idx + 3)),
        idx + 4)
    else (perturbUnit sys forceHighEntropy (rng (idx + 1)) (rng (idx + 2)),
      idx + 3)

/-- The `.map` of `mutateDeployment`, threading the random stream. -/
def mutateGo (radarSecured forceHighEntropy : Bool) (rng : ℕ → ℝ) :
    List DefenseSystem → ℕ → List DefenseSystem
  | [], _ => []
  | sys :: rest, idx =>
    let m := mutateUnit radarSecured forceHighEntropy rng sys idx
    m.1 :: mutateGo radarSecured forceHighEntropy rng rest m.2

/-- Source `mutateDeployment`; `geoData` and `placementStrategy` are
accepted but unused by the source body. -/
def mutateDeployment (baseSystems : List DefenseSystem)
    (radarSecured : Bool) (geoData : Option GeoData)
    (placementStrategy : String) (forceHighEntropy : Bool)
    (rng : ℕ → ℝ) : List DefenseSystem :=
  let _ := geoData
  let _ := placementStrategy
  mutateGo radarSecured forceHighEntropy rng baseSystems 0

/-! ## Batch evaluator (`runBatchTest`) -/

/-- Fallback for an out-of-range `CITIES` index (unreachable while the
random stream stays inside `[0, 1)`). -/
def defaultCity : City := ⟨"", 0, 0, 0⟩

/-- Random border-crossing origin of one synthetic trial (consumes the
stream values at `idx` and `idx + 1`). -/
def trialStart (rng : ℕ → ℝ) (idx : ℕ) : LatLng :=
  let side := Int.floor (rng idx * 4)
  if side = 0 then
    ⟨((SL_maxLat : ℚ) : ℝ) + 1,
     ((SL_minLng : ℚ) : ℝ)
       + rng (idx + 1) * (((SL_maxLng : ℚ) : ℝ) - ((SL_minLng : ℚ) : ℝ))⟩
  else if side = 1 then
    ⟨((SL_minLat : ℚ) : ℝ) - 1,
     ((SL_minLng : ℚ) : ℝ)
       + rng (idx + 1) * (((SL_maxLng : ℚ) : ℝ) - ((SL_minLng : ℚ) : ℝ))⟩
  else if side = 2 then
    ⟨((SL_minLat : ℚ) : ℝ)
       + rng (idx + 1) * (((SL_maxLat : ℚ) : ℝ) - ((SL_minLat : ℚ) : ℝ)),
     ((SL_maxLng : ℚ) : ℝ) + 1⟩
  else
    ⟨((SL_minLat : ℚ) : ℝ)
       + rng (idx + 1) * (((SL_maxLat : ℚ) : ℝ) - ((SL_minLat : ℚ) : ℝ)),
     ((SL_minLng : ℚ) : ℝ) - 1⟩

/-- `CITIES[Math.floor(Math.random() * CITIES.length)]`. -/
def trialTargetCity (rng : ℕ → ℝ) (idx : ℕ) : City :=
  (CITIES.get? (Int.floor (rng idx * (CITIES.length : ℝ))).toNat).getD
    defaultCity

/-- Path detected by some active radar (point-to-segment distance, degrees
converted to km by the source's `* 111`). -/
def segDetected (radars : List DefenseSystem) (start target : LatLng) :
    Prop :=
  ∃ r ∈ radars,
    pointToSegmentDistance ⟨r.lng, r.lat⟩ ⟨start.lng, start.lat⟩
      ⟨target.lng, target.lat⟩ * 111 ≤ r.range

/-- Path intercepted: some active interceptor in range of the segment with
`(shotSpeed || 0.25) / (0.005 * speedMod) > 0.8`. -/
def segHit (interceptors : List DefenseSystem) (start target : LatLng)
    (speedMod : ℝ) : Prop :=
  ∃ i ∈ interceptors,
    pointToSegmentDistance ⟨i.lng, i.lat⟩ ⟨start.lng, start.lat⟩
        ⟨target.lng, target.lat⟩ * 111 ≤ i.range
      ∧ orDefault i.shotSpeed 0.25 / (0.005 * speedMod) > 0.8

/-- Accumulator of the batch loops; `idx` is the random-stream position. -/
structure BatchState where
  idx : ℕ
  totalLaunched : ℕ
  interceptedCount : ℕ
  impactedCount : ℕ
  detectedCount : ℕ

/-- One synthetic trial of `runBatchTest` (consumes three stream values). -/
def batchTrialStep (systems : List DefenseSystem) (speedMod : ℝ)
    (rng : ℕ → ℝ) (st : BatchState) : BatchState :=
  let start := trialStart rng st.idx
  let city := trialTargetCity rng (st.idx + 2)
  let target : LatLng := ⟨city.lat, city.lng⟩
  let st1 := { st with
    idx := st.idx + 3, totalLaunched := st.totalLaunched + 1 }
  if segDetected (activeRadars systems) start target then
    if segHit (activeInterceptors systems) start target speedMod then
      { st1 with
          detectedCount := st1.detectedCount + 1,
          interceptedCount := st1.interceptedCount + 1 }
    else
      { st1 with
          detectedCount := st1.detectedCount + 1,
          impactedCount := st1.impactedCount + 1 }
  else { st1 with impactedCount := st1.impactedCount + 1 }

/-- Inner loop (`for m in 0..missilesPerRound`). -/
def batchInner (systems : List DefenseSystem) (speedMod : ℝ)
    (rng : ℕ → ℝ) : ℕ → BatchState → BatchState
  | 0, st => st
  | m + 1, st =>
    batchInner systems speedMod rng m (batchTrialStep systems speedMod rng st)

/-- Outer loop (`for r in 0..rounds`). -/
def batchOuter (systems : List DefenseSystem) (speedMod : ℝ)
    (rng : ℕ → ℝ) (missilesPerRound : ℕ) : ℕ → BatchState → BatchState
  | 0, st => st
  | r + 1, st =>
    batchOuter systems speedMod rng missilesPerRound r
      (batchInner systems speedMod rng missilesPerRound st)

/-- Source `runBatchTest` (counting part; log sampling and timing are
display-only). -/
def runBatchTest (rounds missilesPerRound : ℕ)
    (systems : List DefenseSystem) (speedMod : ℝ) (rng : ℕ → ℝ) :
    BatchState :=
  batchOuter systems speedMod rng missilesPerRound rounds ⟨0, 0, 0, 0, 0⟩

/-! ## Concrete example data used by witnesses and counterexamples -/

/-- A sample point. -/
def ptW : LatLng := ⟨1, 2⟩

/-- A stationary threat located at `ptW` with start = target = current. -/
def thW : Threat :=
  ⟨"t0", ptW, ptW, ptW, Status.MOVING, 0, none, none, none, none⟩

/-- An interceptor colocated with `ptW` (lat 1, lng 2), shot speed 1. -/
def iW : DefenseSystem := ⟨"i0", 1, 2, 10, Role.INTERCEPTOR, 1, none⟩

/-- A threat already resolved (terminal status). -/
def thI : Threat :=
  ⟨"t1", ptW, ptW, ptW, Status.INTERCEPTED, 0, none, none, none, none⟩

/-- A stationary threat bound to interceptor id `"i0"`, with pursuit
position and predicted intercept point at its own location. -/
def thB : Threat :=
  ⟨"t2", ptW, ptW, ptW, Status.MOVING, 0, some "i0", some ptW, some ptW,
    none⟩

/-- A deactivated interceptor with id `"i0"`. -/
def iOff : DefenseSystem :=
  ⟨"i0", 1, 2, 10, Role.INTERCEPTOR, 1, some false⟩

/-- A square ring (lng 70..90, lat 0..20) containing the whole sampling
bounding box. -/
def bigRing : Ring := [(70, 0), (90, 0), (90, 20), (70, 20)]

/-- Region data that classifies every sample point as land. -/
def bigGeo : GeoData := [Geometry.polygon [bigRing]]

/-- A radar whose range (10⁹ km) covers every point on the sphere. -/
def bigRadar : DefenseSystem :=
  ⟨"r1", 7, 80, 1000000000, Role.RADAR, 0, none⟩

/-- An interceptor whose range covers every point on the sphere. -/
def bigInterceptor : DefenseSystem :=
  ⟨"a1", 7, 80, 1000000000, Role.INTERCEPTOR, 1, none⟩

/-- A unit placed far outside the bounding box. -/
def uOut : DefenseSystem :=
  ⟨"u1", 100, 200, 10, Role.INTERCEPTOR, 1, none⟩

end

/-! Parity characterization of the toggle folds. -/

theorem decide_odd_add (m n : ℕ) :
    decide (Odd (m + n)) = xor (decide (Odd m)) (decide (Odd n)) := by
  by_cases hm : Odd m <;> by_cases hn : Odd n <;>
    simp [Nat.odd_add, hm, hn, Nat.not_even_iff_odd, Nat.even_iff_not_odd]

/-- Toggling an accumulator once per member polygon whose first ring
contains the point computes the xor of the accumulator with the parity of
the number of containing first rings. -/
theorem foldl_toggle_parity (x y : ℚ) (polys : List (List Ring)) (acc : Bool) :
    polys.foldl
        (fun b rings =>
          if checkPolygon x y (firstRing rings) then !b else b) acc
      = xor acc (decide (Odd (polys.countP
          (fun rings => checkPolygon x y (firstRing rings))))) := by
  induction polys generalizing acc with
  | nil => simp
  | cons p rest ih =>
    rw [List.foldl_cons, ih, List.countP_cons]
    cases h : checkPolygon x y (firstRing p) with
    | false => simp [h]
    | true =>
      by_cases ho : Odd (rest.countP
          (fun rings => checkPolygon x y (firstRing rings))) <;>
        cases acc <;> simp [h, ho, Nat.odd_add_one]

theorem featureToggle_parity (lng lat : ℚ) (acc : Bool) (g : Geometry) :
    featureToggle lng lat acc g
      = xor acc (decide (Odd ((outerRingsOfGeom g).countP
          (fun r => checkPolygon lng lat r)))) := by
  cases g with
  | polygon rings =>
    show (if checkPolygon lng lat (firstRing rings) then !acc else acc)
      = xor acc (decide (Odd ([firstRing rings].countP
          (fun r => checkPolygon lng lat r))))
    generalize firstRing rings = r0
    cases h : checkPolygon lng lat r0 <;>
      cases acc <;> simp [List.countP_cons, h]
  | multiPolygon polys =>
    show polys.foldl
        (fun a rings =>
          if checkPolygon lng lat (firstRing rings) then !a else a) acc = _
    rw [foldl_toggle_parity]
    rw [show outerRingsOfGeom (Geometry.multiPolygon polys)
        = polys.map (fun rings => firstRing rings) from rfl,
      List.countP_map]
    rfl

/-- `isInsideCountry` depends only on the first ring of each polygon
component: it reports exactly whether an odd number of those outer rings
contain the query point. -/
theorem isInsideCountry_parity (lat lng : ℚ) (features : GeoData) :
    isInsideCountry lat lng (some features)
      = decide (Odd ((outerRingsOf features).countP
          (fun r => checkPolygon lng lat r))) := by
  suffices h : ∀ acc : Bool,
      features.foldl (featureToggle lng lat) acc
        = xor acc (decide (Odd ((outerRingsOf features).countP
            (fun r => checkPolygon lng lat r)))) by
    simpa [isInsideCountry] using h false
  induction features with
  | nil => intro acc; simp [outerRingsOf]
  | cons g rest ih =>
    intro acc
    rw [List.foldl_cons, featureToggle_parity, ih,
      show outerRingsOf (g :: rest) = outerRingsOfGeom g ++ outerRingsOf rest
        from by simp [outerRingsOf],
      List.countP_append, decide_odd_add, Bool.xor_assoc]


/-! ## C1: ring semantics of `isInsideCountry` -/

/-- C1 (amended): `isInsideCountry` toggles membership only across the
*first* ring of each `Polygon` and of each `MultiPolygon` component — it
returns true iff an odd number of those outer rings contain the point, and
hole rings listed after the first ring of a polygon are ignored entirely. -/
theorem isInsideCountry_outer_parity :
    (∀ lat lng : ℚ, ∀ features : GeoData,
      isInsideCountry lat lng (some features)
        = decide (Odd ((outerRingsOf features).countP
            (fun r => checkPolygon lng lat r))))
    ∧ (∀ lat lng : ℚ, ∀ outer : Ring, ∀ holes holes2 : List Ring,
        ∀ rest : GeoData,
      isInsideCountry lat lng
          (some (Geometry.polygon (outer :: holes) :: rest))
        = isInsideCountry lat lng
            (some (Geometry.polygon (outer :: holes2) :: rest))) := by
  refine ⟨fun lat lng features => isInsideCountry_parity lat lng features,
    fun lat lng outer holes holes2 rest => ?_⟩
  have hsame : ∀ holes' : List Ring,
      outerRingsOf (Geometry.polygon (outer :: holes') :: rest)
        = outer :: outerRingsOf rest := by
    intro holes'
    simp [outerRingsOf, outerRingsOfGeom, firstRing]
  rw [isInsideCountry_parity, isInsideCountry_parity, hsame, hsame]

/-- C1 (counterexample): a `Polygon` whose ring list is an outer square
ring plus a nested hole ring, queried at a point inside both rings.  The
claim demands `false` (even number of containing rings); the code answers
`true` because it consults only the first ring. -/
theorem isInsideCountry_nested_hole_cex :
    isInsideCountry 5 5
        (some [Geometry.polygon
          [[(0, 0), (10, 0), (10, 10), (0, 10)],
           [(2, 2), (8, 2), (8, 8), (2, 8)]]]) = true
      ∧ checkPolygon 5 5 [(0, 0), (10, 0), (10, 10), (0, 10)] = true
      ∧ checkPolygon 5 5 [(2, 2), (8, 2), (8, 8), (2, 8)] = true := by
  refine ⟨?_, ?_, ?_⟩ <;>
    norm_num [isInsideCountry, featureToggle, firstRing, checkPolygon,
      cyclicPairs, edgeCross]

/-! ## Real-geometry helper lemmas -/

theorem atan2_nonneg_le_pi_div_two {y x : ℝ} (hy : 0 ≤ y) (hx : 0 ≤ x) :
    0 ≤ atan2 y x ∧ atan2 y x ≤ Real.pi / 2 := by
  unfold atan2
  rcases lt_or_eq_of_le hx with hx' | hx'
  · rw [if_pos hx']
    refine ⟨?_, (Real.arctan_lt_pi_div_two _).le⟩
    have h := Real.arctan_strictMono.monotone (div_nonneg hy hx'.le)
    rwa [Real.arctan_zero] at h
  · rw [if_neg (by rw [← hx']; exact lt_irrefl 0),
      if_neg (by rw [← hx']; exact lt_irrefl 0)]
    by_cases hy' : 0 < y
    · rw [if_pos hy']
      exact ⟨by positivity, le_refl _⟩
    · rw [if_neg hy', if_neg (by linarith [hy.lt_or_eq])]
      exact ⟨le_refl 0, by positivity⟩

theorem distanceTo_self (p : LatLng) : distanceTo p p = 0 := by
  norm_num [distanceTo, atan2, sub_self, Real.sin_zero, Real.sqrt_zero,
    Real.sqrt_one, Real.arctan_zero]

theorem distanceTo_le_R_pi (p q : LatLng) :
    distanceTo p q ≤ EARTH_R * Real.pi := by
  have hbound : ∀ a : ℝ,
      EARTH_R * (2 * atan2 (Real.sqrt a) (Real.sqrt (1 - a)))
        ≤ EARTH_R * Real.pi := by
    intro a
    obtain ⟨h0, h1⟩ := atan2_nonneg_le_pi_div_two
      (Real.sqrt_nonneg a) (Real.sqrt_nonneg (1 - a))
    have hR : (0 : ℝ) ≤ EARTH_R := by norm_num [EARTH_R]
    nlinarith
  simp only [distanceTo]
  exact hbound _

/-! ## C2: the intercept quadratic -/

theorem interC_nonneg (threat : Threat) (interceptor : DefenseSystem) :
    0 ≤ interC threat interceptor := by
  simp only [interC, interDelta]
  exact add_nonneg (mul_self_nonneg _) (mul_self_nonneg _)

theorem interB_eq_zero_of_interC_eq_zero (threat : Threat)
    (interceptor : DefenseSystem) (h : interC threat interceptor = 0) :
    interB threat interceptor = 0 := by
  simp only [interC, interDelta] at h
  have hdx : threat.current.lng - interceptor.lng = 0 := by
    have h2 := mul_self_nonneg (threat.current.lat - interceptor.lat)
    have hz : (threat.current.lng - interceptor.lng)
        * (threat.current.lng - interceptor.lng) = 0 := by nlinarith [h]
    exact mul_self_eq_zero.mp hz
  have hdy : threat.current.lat - interceptor.lat = 0 := by
    have h1 := mul_self_nonneg (threat.current.lng - interceptor.lng)
    have hz : (threat.current.lat - interceptor.lat)
        * (threat.current.lat - interceptor.lat) = 0 := by nlinarith [h]
    exact mul_self_eq_zero.mp hz
  simp [interB, interDelta, hdx, hdy]

/-- C2 (confirmed): `calculateIntercept` embeds the pursuit quadratic
`a·t² + b·t + c = 0` with `a = |v_threat|² − Vi²`, `b = 2(v_threat · Δ)`,
`c = |Δ|²`, `Δ = threat.current − interceptor_base`: it returns `none` when
the discriminant is negative or when the selected root
`t = (−b − √disc)/(2a)` is negative, and otherwise the threat's
straight-line position at `t`; for `a ≠ 0` that `t` is the smaller
non-negative root of the quadratic, and a zero-velocity threat colocated
with an interceptor of positive shot speed gets intercept time `0` and the
threat's current position. -/
theorem calculateIntercept_spec (threat : Threat)
    (interceptor : DefenseSystem) :
    (interDisc threat interceptor < 0 →
      calculateIntercept threat interceptor = none)
    ∧ (0 ≤ interDisc threat interceptor → interT threat interceptor < 0 →
        calculateIntercept threat interceptor = none)
    ∧ (0 ≤ interDisc threat interceptor → 0 ≤ interT threat interceptor →
        calculateIntercept threat interceptor
          = some ⟨threat.current.lat
                    + (interVelocity threat).2 * interT threat interceptor,
                  threat.current.lng
                    + (interVelocity threat).1 * interT threat interceptor⟩)
    ∧ (interA threat interceptor ≠ 0 → 0 ≤ interDisc threat interceptor →
        0 ≤ interT threat interceptor →
        (interA threat interceptor * interT threat interceptor ^ 2
            + interB threat interceptor * interT threat interceptor
            + interC threat interceptor = 0
          ∧ ∀ s : ℝ, 0 ≤ s →
              interA threat interceptor * s ^ 2
                  + interB threat interceptor * s
                  + interC threat interceptor = 0 →
              interT threat interceptor ≤ s))
    ∧ (threat.speed = 0 →
        threat.current = ⟨interceptor.lat, interceptor.lng⟩ →
        0 < interceptor.shotSpeed →
        interT threat interceptor = 0
          ∧ calculateIntercept threat interceptor = some threat.current) := by
  refine ⟨?_, ?_, ?_, ?_, ?_⟩
  · intro h
    simp [calculateIntercept, h]
  · intro h1 h2
    simp [calculateIntercept, h1.not_lt, h2]
  · intro h1 h2
    simp [calculateIntercept, h1.not_lt, h2.not_lt]
  · intro ha h1 h2
    set a := interA threat interceptor with ha_def
    set b := interB threat interceptor with hb_def
    set c := interC threat interceptor with hc_def
    have hdisc : discrim a b c
        = Real.sqrt (interDisc threat interceptor)
          * Real.sqrt (interDisc threat interceptor) := by
      rw [Real.mul_self_sqrt h1, discrim, interDisc,
        ← ha_def, ← hb_def, ← hc_def]
      ring
    have hT : interT threat interceptor
        = (-b - Real.sqrt (interDisc threat interceptor)) / (2 * a) := rfl
    have hroot : a * (interT threat interceptor * interT threat interceptor)
        + b * interT threat interceptor + c = 0 :=
      (quadratic_eq_zero_iff ha hdisc _).mpr (Or.inr hT)
    constructor
    · rw [pow_two]
      exact hroot
    · intro s hs hroots
      rw [pow_two] at hroots
      rcases (quadratic_eq_zero_iff ha hdisc s).mp hroots with hcase | hcase
      · rcases lt_trichotomy a 0 with ha' | ha' | ha'
        · have hsq : 0 ≤ Real.sqrt (interDisc threat interceptor) :=
            Real.sqrt_nonneg _
          have h2a : 2 * a < 0 := by linarith
          have hnum1 : -b + Real.sqrt (interDisc threat interceptor) ≤ 0 := by
            by_contra hcon
            push_neg at hcon
            have hneg : s < 0 := by
              rw [hcase]
              exact div_neg_of_pos_of_neg hcon h2a
            linarith
          have hnum2 : 0 ≤ -b - Real.sqrt (interDisc threat interceptor) ∨
              -b - Real.sqrt (interDisc threat interceptor) ≤ 0 :=
            le_total 0 _
          have hnum2' : -b - Real.sqrt (interDisc threat interceptor) ≤ 0 := by
            by_contra hcon
            push_neg at hcon
            have hneg : interT threat interceptor < 0 := by
              rw [hT]
              exact div_neg_of_pos_of_neg hcon h2a
            linarith
          have hb0 : 0 ≤ b := by linarith
          have hfac : 0 ≤ (b - Real.sqrt (interDisc threat interceptor))
              * (b + Real.sqrt (interDisc threat interceptor)) :=
            mul_nonneg (by linarith) (by linarith)
          have hdle : interDisc threat interceptor ≤ b * b := by
            nlinarith [Real.mul_self_sqrt h1]
          have hac : 0 ≤ a * c := by
            rw [interDisc, ← ha_def, ← hb_def, ← hc_def] at hdle
            nlinarith
          have hcnn : 0 ≤ c := interC_nonneg threat interceptor
          have hc0 : c = 0 := by nlinarith
          have hb0' : b = 0 :=
            interB_eq_zero_of_interC_eq_zero threat interceptor hc0
          have hd0 : interDisc threat interceptor = 0 := by
            rw [interDisc, ← ha_def, ← hb_def, ← hc_def, hb0', hc0]
            ring
          rw [hT, hcase, hb0', hd0, Real.sqrt_zero]
          norm_num
        · exact absurd ha' ha
        · have h2a : 0 < 2 * a := by linarith
          rw [hT, hcase, div_le_div_iff_of_pos_right h2a]
          linarith [Real.sqrt_nonneg (interDisc threat interceptor)]
      · rw [hT, hcase]
  · intro hspeed hpos hshot
    have hb0 : interB threat interceptor = 0 := by
      simp [interB, interDelta, hpos]
    have hc0 : interC threat interceptor = 0 := by
      simp [interC, interDelta, hpos]
    have hd0 : interDisc threat interceptor = 0 := by
      rw [interDisc, hb0, hc0]
      ring
    have ht0 : interT threat interceptor = 0 := by
      rw [interT, hb0, hd0, Real.sqrt_zero]
      norm_num
    refine ⟨ht0, ?_⟩
    simp [calculateIntercept, hd0, ht0]

/-- Witness for `calculateIntercept_spec`: the stationary threat `thW`
colocated with interceptor `iW` (positive shot speed) gets intercept time 0
and its own position back. -/
theorem calculateIntercept_spec_witness :
    interT thW iW = 0 ∧ calculateIntercept thW iW = some thW.current :=
  (calculateIntercept_spec thW iW).2.2.2.2 rfl rfl (by norm_num [iW])

/-! ## Structural lemmas about `stepThreat` -/

theorem stepThreat_not_moving (systems : List DefenseSystem)
    (currentSpeed dt : ℝ) (threat : Threat)
    (h : threat.status ≠ Status.MOVING) :
    stepThreat systems currentSpeed dt threat = (threat, SimEvent.noEvent) := by
  unfold stepThreat
  rw [if_pos h]

theorem detectAssign_fields (systems : List DefenseSystem) (threat : Threat)
    (nextPos : LatLng) :
    (detectAssign systems threat nextPos).status = threat.status
    ∧ (detectAssign systems threat nextPos).target = threat.target
    ∧ (detectAssign systems threat nextPos).start = threat.start
    ∧ (detectAssign systems threat nextPos).current = threat.current
    ∧ (detectAssign systems threat nextPos).speed = threat.speed := by
  unfold detectAssign
  cases hfd : findDetectingRadar systems nextPos with
  | none => exact ⟨rfl, rfl, rfl, rfl, rfl⟩
  | some radar =>
    dsimp only
    split_ifs with hb
    · cases hpick : pickInterceptor { threat with detectedByRadarId := some radar.id }
        (sortByShotSpeedDesc (activeInterceptors systems)) with
      | none => exact ⟨rfl, rfl, rfl, rfl, rfl⟩
      | some p => exact ⟨rfl, rfl, rfl, rfl, rfl⟩
    · exact ⟨rfl, rfl, rfl, rfl, rfl⟩

theorem detectAssign_of_bound (systems : List DefenseSystem)
    (threat : Threat) (nextPos : LatLng) (iid : String)
    (h : threat.interceptorId = some iid) :
    (detectAssign systems threat nextPos).interceptorId = some iid
    ∧ (detectAssign systems threat nextPos).interceptorPos
        = threat.interceptorPos
    ∧ (detectAssign systems threat nextPos).predictedInterceptPoint
        = threat.predictedInterceptPoint := by
  unfold detectAssign
  cases hfd : findDetectingRadar systems nextPos with
  | none => exact ⟨h, rfl, rfl⟩
  | some radar =>
    dsimp only
    rw [if_neg (by simp [h])]
    exact ⟨h, rfl, rfl⟩

theorem resolveImpact_cases (currentSpeed : ℝ) (nextPos : LatLng)
    (t : Threat) :
    resolveImpact currentSpeed nextPos t
        = ({ t with status := Status.IMPACTED, current := t.target },
           SimEvent.impacted)
    ∨ resolveImpact currentSpeed nextPos t
        = ({ t with current := nextPos }, SimEvent.noEvent) := by
  unfold resolveImpact
  split_ifs with h
  · exact Or.inl rfl
  · exact Or.inr rfl

/-- The kill branch of `stepThreat`: a bound MOVING threat whose pursuing
interceptor ends the sub-step within the kill radius is INTERCEPTED, and
the impact check is skipped (source `continue`). -/
theorem stepThreat_kill (systems : List DefenseSystem)
    (currentSpeed dt : ℝ) (threat : Threat) (iid : String) (ip : LatLng)
    (hmov : threat.status = Status.MOVING)
    (hbound : threat.interceptorId = some iid)
    (hpos : threat.interceptorPos = some ip)
    (hkill : distanceTo
        (pursuitNextPos ip
          (threat.predictedInterceptPoint.getD (nextThreatPos dt threat))
          (pursuitShotSpeed systems iid) dt)
        (nextThreatPos dt threat)
      < killRadiusOf currentSpeed threat.speed) :
    stepThreat systems currentSpeed dt threat
      = ({ detectAssign systems threat (nextThreatPos dt threat) with
            status := Status.INTERCEPTED,
            current := nextThreatPos dt threat }, SimEvent.intercepted) := by
  obtain ⟨hb1, hb2, hb3⟩ :=
    detectAssign_of_bound systems threat (nextThreatPos dt threat) iid hbound
  unfold stepThreat
  rw [if_neg (by simp [hmov])]
  dsimp only
  rw [hb1, hb2, hpos]
  dsimp only
  rw [hb3, if_pos hkill]

theorem stepThreat_cases (systems : List DefenseSystem)
    (currentSpeed dt : ℝ) (threat : Threat)
    (h : threat.status = Status.MOVING) :
    ((stepThreat systems currentSpeed dt threat).1.status = Status.MOVING
        ∧ (stepThreat systems currentSpeed dt threat).2 = SimEvent.noEvent)
    ∨ ((stepThreat systems currentSpeed dt threat).1.status
          = Status.INTERCEPTED
        ∧ (stepThreat systems currentSpeed dt threat).2
          = SimEvent.intercepted)
    ∨ ((stepThreat systems currentSpeed dt threat).1.status = Status.IMPACTED
        ∧ (stepThreat systems currentSpeed dt threat).2
          = SimEvent.impacted) := by
  have hst := (detectAssign_fields systems threat
    (nextThreatPos dt threat)).1
  unfold stepThreat
  rw [if_neg (by simp [h])]
  dsimp only
  split
  · split_ifs with hkill
    · simp
    · unfold resolveImpact
      split_ifs with himp
      · simp
      · exact Or.inl ⟨by simp [hst, h], by simp⟩
  · unfold resolveImpact
    split_ifs with himp
    · simp
    · exact Or.inl ⟨by simp [hst, h], by simp⟩

theorem stepThreat_interceptorId_of_some (systems : List DefenseSystem)
    (currentSpeed dt : ℝ) (threat : Threat) (iid : String)
    (h : threat.interceptorId = some iid) :
    ((stepThreat systems currentSpeed dt threat).1).interceptorId
      = some iid := by
  by_cases hmov : threat.status = Status.MOVING
  · have hb1 := (detectAssign_of_bound systems threat
      (nextThreatPos dt threat) iid h).1
    unfold stepThreat
    rw [if_neg (by simp [hmov])]
    dsimp only
    split
    · split_ifs with hkill
      · simpa using hb1
      · unfold resolveImpact
        split_ifs with himp
        · simpa using hb1
        · simpa using hb1
    · unfold resolveImpact
      split_ifs with himp
      · simpa using hb1
      · simpa using hb1
  · rw [stepThreat_not_moving systems currentSpeed dt threat hmov]
    exact h

/-! ## Counter bookkeeping for the simulation state -/

theorem step_results_moving_count (systems : List DefenseSystem)
    (currentSpeed dt : ℝ) (threats : List Threat) :
    threats.countP (fun t => decide (t.status = Status.MOVING))
      = threats.countP (fun t =>
          decide ((stepThreat systems currentSpeed dt t).2
            = SimEvent.intercepted))
        + threats.countP (fun t =>
            decide ((stepThreat systems currentSpeed dt t).2
              = SimEvent.impacted))
        + threats.countP (fun t =>
            decide ((stepThreat systems currentSpeed dt t).1.status
              = Status.MOVING)) := by
  induction threats with
  | nil => simp
  | cons t ts ih =>
    simp only [List.countP_cons] at ih ⊢
    by_cases h : t.status = Status.MOVING
    · rcases stepThreat_cases systems currentSpeed dt t h with
        ⟨h1, h2⟩ | ⟨h1, h2⟩ | ⟨h1, h2⟩ <;>
        simp [h, h1, h2] <;> omega
    · rw [stepThreat_not_moving systems currentSpeed dt t h]
      simp [h]
      omega

theorem subStep_counter_inv (systems : List DefenseSystem)
    (currentSpeed dt : ℝ) (s : SimState)
    (h : s.stats.launched
      = s.stats.intercepted + s.stats.impacted + movingCount s) :
    (subStep systems currentSpeed dt s).stats.launched
      = (subStep systems currentSpeed dt s).stats.intercepted
        + (subStep systems currentSpeed dt s).stats.impacted
        + movingCount (subStep systems currentSpeed dt s) := by
  have hm := step_results_moving_count systems currentSpeed dt s.threats
  simp only [subStep, movingCount, countEvents, List.countP_map,
    Function.comp_def] at h ⊢
  omega

theorem subStepIter_counter_inv (systems : List DefenseSystem)
    (currentSpeed dt : ℝ) :
    ∀ (n : ℕ) (s : SimState),
      s.stats.launched
          = s.stats.intercepted + s.stats.impacted + movingCount s →
      (subStepIter systems currentSpeed dt n s).stats.launched
        = (subStepIter systems currentSpeed dt n s).stats.intercepted
          + (subStepIter systems currentSpeed dt n s).stats.impacted
          + movingCount (subStepIter systems currentSpeed dt n s) := by
  intro n
  induction n with
  | zero => intro s h; exact h
  | succ n ih =>
    intro s h
    exact ih _ (subStep_counter_inv systems currentSpeed dt s h)

theorem reachable_counter_inv (s : SimState) (h : Reachable s) :
    s.stats.launched = s.stats.intercepted + s.stats.impacted + movingCount s := by
  induction h with
  | start => rfl
  | step_launch s idStr startPos targetPos speed hr ih =>
    simp only [launchThreat, movingCount, List.countP_append] at ih ⊢
    simp
    omega
  | step_tick s systems rawDeltaTime currentSpeed hr ih =>
    unfold tick
    exact subStepIter_counter_inv systems currentSpeed _ _ s ih

/-! ## C4, C5, C10: binding stickiness, lifecycle, kill priority -/

/-- C4 (confirmed): the `interceptorId` field is the only binding (so a
threat has at most one bound interceptor), and once it is `some iid` no
single sub-step and no sequence of later sub-steps (with arbitrary system
lists, speed factors and time steps) ever changes it. -/
theorem threat_binding_sticky :
    (∀ systems (currentSpeed dt : ℝ) (threat : Threat) (iid : String),
      threat.interceptorId = some iid →
      ((stepThreat systems currentSpeed dt threat).1).interceptorId
        = some iid)
    ∧ (∀ (steps : List (List DefenseSystem × ℝ × ℝ)) (threat : Threat)
        (iid : String),
      threat.interceptorId = some iid →
      (steps.foldl (fun t p => (stepThreat p.1 p.2.1 p.2.2 t).1)
          threat).interceptorId
        = some iid) := by
  refine ⟨stepThreat_interceptorId_of_some, ?_⟩
  intro steps
  induction steps with
  | nil => intro threat iid h; simpa using h
  | cons p rest ih =>
    intro threat iid h
    rw [List.foldl_cons]
    exact ih _ iid (stepThreat_interceptorId_of_some p.1 p.2.1 p.2.2 threat iid h)

/-- Witness for `threat_binding_sticky` at the bound threat `thB`. -/
theorem threat_binding_sticky_witness :
    ((stepThreat [] 1 0 thB).1).interceptorId = some "i0" :=
  threat_binding_sticky.1 [] 1 0 thB "i0" rfl

/-- C5 (confirmed): INTERCEPTED and IMPACTED are terminal — a non-MOVING
threat is returned unchanged with no event by every sub-step — and in
every reachable simulation state the launched counter equals the
intercepted counter plus the impacted counter plus the number of MOVING
threats. -/
theorem threat_lifecycle_spec :
    (∀ systems (currentSpeed dt : ℝ) (threat : Threat),
      threat.status ≠ Status.MOVING →
      stepThreat systems currentSpeed dt threat = (threat, SimEvent.noEvent))
    ∧ (∀ s : SimState, Reachable s →
      s.stats.launched
        = s.stats.intercepted + s.stats.impacted + movingCount s) :=
  ⟨stepThreat_not_moving, reachable_counter_inv⟩

/-- Witness for `threat_lifecycle_spec`: the INTERCEPTED threat `thI` is
left untouched, and the counter equation holds after one launch from the
reset state. -/
theorem threat_lifecycle_spec_witness :
    stepThreat [] 1 0 thI = (thI, SimEvent.noEvent)
    ∧ (launchThreat "a" ptW ptW 0 initState).stats.launched
        = (launchThreat "a" ptW ptW 0 initState).stats.intercepted
          + (launchThreat "a" ptW ptW 0 initState).stats.impacted
          + movingCount (launchThreat "a" ptW ptW 0 initState) :=
  ⟨threat_lifecycle_spec.1 [] 1 0 thI (by simp [thI]),
   threat_lifecycle_spec.2 _
     (Reachable.step_launch initState "a" ptW ptW 0 Reachable.start)⟩

theorem nextThreatPos_dt_zero (threat : Threat) :
    nextThreatPos 0 threat = threat.current := by
  simp [nextThreatPos]

theorem pursuitNextPos_dt_zero (ip targetGoal : LatLng) (shotSpeed : ℝ) :
    pursuitNextPos ip targetGoal shotSpeed 0 = ip := by
  simp [pursuitNextPos]

/-- C10 (confirmed): in a single sub-step the kill check is evaluated
before the impact check: a bound MOVING threat satisfying the kill-radius
condition resolves to INTERCEPTED even when the impact-threshold condition
holds simultaneously. -/
theorem kill_before_impact (systems : List DefenseSystem)
    (currentSpeed dt : ℝ) (threat : Threat) (iid : String) (ip : LatLng)
    (hmov : threat.status = Status.MOVING)
    (hbound : threat.interceptorId = some iid)
    (hpos : threat.interceptorPos = some ip)
    (hkill : distanceTo
        (pursuitNextPos ip
          (threat.predictedInterceptPoint.getD (nextThreatPos dt threat))
          (pursuitShotSpeed systems iid) dt)
        (nextThreatPos dt threat)
      < killRadiusOf currentSpeed threat.speed)
    (himpact : distanceTo (nextThreatPos dt threat) threat.target
      < impactThresholdOf currentSpeed) :
    (stepThreat systems currentSpeed dt threat).1.status
        = Status.INTERCEPTED
    ∧ (stepThreat systems currentSpeed dt threat).2
        = SimEvent.intercepted := by
  rw [stepThreat_kill systems currentSpeed dt threat iid ip hmov hbound hpos
    hkill]
  exact ⟨rfl, rfl⟩

/-- Witness for `kill_before_impact`: the stationary bound threat `thB`
with `dt = 0` satisfies both the kill condition and the impact condition
(both distances are zero) and resolves to INTERCEPTED. -/
theorem kill_before_impact_witness :
    (stepThreat [] 1 0 thB).1.status = Status.INTERCEPTED
    ∧ (stepThreat [] 1 0 thB).2 = SimEvent.intercepted := by
  have hkill : distanceTo
      (pursuitNextPos ptW
        (thB.predictedInterceptPoint.getD (nextThreatPos 0 thB))
        (pursuitShotSpeed [] "i0") 0)
      (nextThreatPos 0 thB) < killRadiusOf 1 thB.speed := by
    rw [pursuitNextPos_dt_zero, nextThreatPos_dt_zero,
      show thB.current = ptW from rfl, distanceTo_self]
    norm_num [killRadiusOf, thB]
  have himpact : distanceTo (nextThreatPos 0 thB) thB.target
      < impactThresholdOf 1 := by
    rw [nextThreatPos_dt_zero, show thB.current = ptW from rfl,
      show thB.target = ptW from rfl, distanceTo_self]
    norm_num [impactThresholdOf]
  exact kill_before_impact [] 1 0 thB "i0" ptW rfl rfl rfl hkill himpact

/-! ## C3: inactive units -/

theorem filter_subpred {α : Type} (p q : α → Bool) (l : List α)
    (h : ∀ x, p x = true → q x = true) :
    (l.filter q).filter p = l.filter p := by
  induction l with
  | nil => rfl
  | cons a t ih =>
    cases hq : q a with
    | true =>
      cases hp : p a with
      | true => simp [List.filter_cons, hq, hp, ih]
      | false => simp [List.filter_cons, hq, hp, ih]
    | false =>
      have hp : p a = false := by
        cases hpa : p a with
        | true => exact absurd (h a hpa) (by simp [hq])
        | false => rfl
      simp [List.filter_cons, hq, hp, ih]

theorem activeRadars_filter_active (systems : List DefenseSystem) :
    activeRadars (systems.filter fun s => decide (s.isActive ≠ some false))
      = activeRadars systems := by
  unfold activeRadars
  refine filter_subpred _ _ systems ?_
  intro x hx
  simp only [decide_eq_true_eq] at hx ⊢
  exact hx.2

theorem activeInterceptors_filter_active (systems : List DefenseSystem) :
    activeInterceptors
        (systems.filter fun s => decide (s.isActive ≠ some false))
      = activeInterceptors systems := by
  unfold activeInterceptors
  refine filter_subpred _ _ systems ?_
  intro x hx
  simp only [decide_eq_true_eq] at hx ⊢
  exact hx.2

theorem detectAssign_filter_active (systems : List DefenseSystem)
    (threat : Threat) (nextPos : LatLng) :
    detectAssign (systems.filter fun s => decide (s.isActive ≠ some false))
        threat nextPos
      = detectAssign systems threat nextPos := by
  unfold detectAssign findDetectingRadar
  rw [activeRadars_filter_active, activeInterceptors_filter_active]

theorem radarLandCount_filter_active (systems : List DefenseSystem)
    (g : GeoData) :
    radarLandCount (systems.filter fun s => decide (s.isActive ≠ some false))
        g
      = radarLandCount systems g := by
  unfold radarLandCount
  rw [activeRadars_filter_active]

theorem attackLandCount_filter_active (systems : List DefenseSystem)
    (g : GeoData) :
    attackLandCount
        (systems.filter fun s => decide (s.isActive ≠ some false)) g
      = attackLandCount systems g := by
  unfold attackLandCount
  rw [activeInterceptors_filter_active]

theorem combinedLandCount_filter_active (systems : List DefenseSystem)
    (g : GeoData) :
    combinedLandCount
        (systems.filter fun s => decide (s.isActive ≠ some false)) g
      = combinedLandCount systems g := by
  unfold combinedLandCount
  rw [activeRadars_filter_active, activeInterceptors_filter_active]

theorem combinedSeaCount_filter_active (systems : List DefenseSystem)
    (g : GeoData) :
    combinedSeaCount
        (systems.filter fun s => decide (s.isActive ≠ some false)) g
      = combinedSeaCount systems g := by
  unfold combinedSeaCount
  rw [activeRadars_filter_active, activeInterceptors_filter_active]

theorem cityScore_filter_active (systems : List DefenseSystem) :
    cityScore (systems.filter fun s => decide (s.isActive ≠ some false))
      = cityScore systems := by
  unfold cityScore
  rw [activeRadars_filter_active, activeInterceptors_filter_active]

theorem calculateScores_filter_active (systems : List DefenseSystem)
    (geoData : Option GeoData) :
    calculateScores (systems.filter fun s => decide (s.isActive ≠ some false))
        geoData
      = calculateScores systems geoData := by
  cases geoData with
  | none => rfl
  | some g =>
    simp only [calculateScores, radarLandCount_filter_active,
      attackLandCount_filter_active, combinedLandCount_filter_active,
      combinedSeaCount_filter_active, cityScore_filter_active]

theorem batchTrialStep_filter_active (systems : List DefenseSystem)
    (speedMod : ℝ) (rng : ℕ → ℝ) (st : BatchState) :
    batchTrialStep (systems.filter fun s => decide (s.isActive ≠ some false))
        speedMod rng st
      = batchTrialStep systems speedMod rng st := by
  unfold batchTrialStep
  rw [activeRadars_filter_active, activeInterceptors_filter_active]

theorem batchInner_filter_active (systems : List DefenseSystem)
    (speedMod : ℝ) (rng : ℕ → ℝ) :
    ∀ (m : ℕ) (st : BatchState),
      batchInner (systems.filter fun s => decide (s.isActive ≠ some false))
          speedMod rng m st
        = batchInner systems speedMod rng m st := by
  intro m
  induction m with
  | zero => intro st; rfl
  | succ m ih =>
    intro st
    show batchInner _ speedMod rng m _ = batchInner _ speedMod rng m _
    rw [batchTrialStep_filter_active]
    exact ih _

theorem batchOuter_filter_active (systems : List DefenseSystem)
    (speedMod : ℝ) (rng : ℕ → ℝ) (missilesPerRound : ℕ) :
    ∀ (r : ℕ) (st : BatchState),
      batchOuter (systems.filter fun s => decide (s.isActive ≠ some false))
          speedMod rng missilesPerRound r st
        = batchOuter systems speedMod rng missilesPerRound r st := by
  intro r
  induction r with
  | zero => intro st; rfl
  | succ r ih =>
    intro st
    show batchOuter _ speedMod rng _ r _ = batchOuter _ speedMod rng _ r _
    rw [batchInner_filter_active]
    exact ih _

theorem runBatchTest_filter_active (rounds missilesPerRound : ℕ)
    (systems : List DefenseSystem) (speedMod : ℝ) (rng : ℕ → ℝ) :
    runBatchTest rounds missilesPerRound
        (systems.filter fun s => decide (s.isActive ≠ some false))
        speedMod rng
      = runBatchTest rounds missilesPerRound systems speedMod rng := by
  unfold runBatchTest
  exact batchOuter_filter_active systems speedMod rng missilesPerRound
    rounds _

theorem pursuitShotSpeed_ignores_active (systems : List DefenseSystem)
    (iid : String) :
    pursuitShotSpeed (systems.map fun s => { s with isActive := some false })
        iid
      = pursuitShotSpeed systems iid := by
  have hfind : ∀ l : List DefenseSystem,
      (l.map fun s => { s with isActive := some false }).find?
          (fun s => decide (s.id = iid))
        = (l.find? (fun s => decide (s.id = iid))).map
            fun s => { s with isActive := some false } := by
    intro l
    induction l with
    | nil => rfl
    | cons a t ih =>
      by_cases h : a.id = iid
      · rw [List.map_cons, List.find?_cons_of_pos _ (by simp [h]),
          List.find?_cons_of_pos _ (by simp [h])]
        rfl
      · rw [List.map_cons, List.find?_cons_of_neg _ (by simp [h]),
          List.find?_cons_of_neg _ (by simp [h]), ih]
  unfold pursuitShotSpeed
  rw [hfind]
  cases systems.find? (fun s => decide (s.id = iid)) with
  | none => rfl
  | some s => rfl

/-- C3 (amended): a `DefenseSystem` with `isActive = some false` takes part
in no radar detection, no interceptor assignment, no coverage computation
and no batch trial — removing all inactive units changes none of those
results — but the pursuit phase never consults the active flag: the
shot-speed lookup for an already-bound interceptor is unchanged even when
every unit is deactivated, and a bound inactive interceptor still
intercepts (see the counterexample). -/
theorem inactive_units_spec :
    (∀ systems (threat : Threat) (nextPos : LatLng),
      detectAssign (systems.filter fun s => decide (s.isActive ≠ some false))
          threat nextPos
        = detectAssign systems threat nextPos)
    ∧ (∀ systems (geoData : Option GeoData),
      calculateScores
          (systems.filter fun s => decide (s.isActive ≠ some false)) geoData
        = calculateScores systems geoData)
    ∧ (∀ (rounds missilesPerRound : ℕ) systems (speedMod : ℝ)
        (rng : ℕ → ℝ),
      runBatchTest rounds missilesPerRound
          (systems.filter fun s => decide (s.isActive ≠ some false))
          speedMod rng
        = runBatchTest rounds missilesPerRound systems speedMod rng)
    ∧ (∀ systems (iid : String),
      pursuitShotSpeed
          (systems.map fun s => { s with isActive := some false }) iid
        = pursuitShotSpeed systems iid) :=
  ⟨detectAssign_filter_active, calculateScores_filter_active,
    runBatchTest_filter_active, pursuitShotSpeed_ignores_active⟩

/-- C3 (counterexample): the claim says a deactivated unit participates in
no engagement, including the pursuit and kill check of an interceptor
bound before deactivation.  With `iOff` (`isActive = some false`) as the
only system and the threat `thB` bound to it, the sub-step still advances
the engagement and marks the threat INTERCEPTED. -/
theorem inactive_interceptor_engages_cex :
    iOff.isActive = some false
    ∧ (stepThreat [iOff] 1 0 thB).1.status = Status.INTERCEPTED
    ∧ (stepThreat [iOff] 1 0 thB).2 = SimEvent.intercepted := by
  refine ⟨rfl, ?_⟩
  have hkill : distanceTo
      (pursuitNextPos ptW
        (thB.predictedInterceptPoint.getD (nextThreatPos 0 thB))
        (pursuitShotSpeed [iOff] "i0") 0)
      (nextThreatPos 0 thB) < killRadiusOf 1 thB.speed := by
    rw [pursuitNextPos_dt_zero, nextThreatPos_dt_zero,
      show thB.current = ptW from rfl, distanceTo_self]
    norm_num [killRadiusOf, thB]
  rw [stepThreat_kill [iOff] 1 0 thB "i0" ptW rfl rfl rfl hkill]
  exact ⟨rfl, rfl⟩

/-! ## C6, C7: coverage counters and percentage metrics -/

section ScoreLemmas

open scoped Classical

theorem gridSize_eq : gridSize = 60 := by
  norm_num [gridSize, SAMPLING_POINTS_COUNT]

theorem combinedLandCount_le (systems : List DefenseSystem) (g : GeoData) :
    combinedLandCount systems g ≤ landTotal g := by
  unfold combinedLandCount landTotal
  refine Finset.sum_le_sum fun i _ => Finset.sum_le_sum fun j _ => ?_
  split_ifs with h1 h2 <;> simp_all

theorem radarLandCount_le (systems : List DefenseSystem) (g : GeoData) :
    radarLandCount systems g ≤ landTotal g := by
  unfold radarLandCount landTotal
  refine Finset.sum_le_sum fun i _ => Finset.sum_le_sum fun j _ => ?_
  split_ifs with h1 h2 <;> simp_all

theorem attackLandCount_le (systems : List DefenseSystem) (g : GeoData) :
    attackLandCount systems g ≤ landTotal g := by
  unfold attackLandCount landTotal
  refine Finset.sum_le_sum fun i _ => Finset.sum_le_sum fun j _ => ?_
  split_ifs with h1 h2 <;> simp_all

theorem combinedSeaCount_le (systems : List DefenseSystem) (g : GeoData) :
    combinedSeaCount systems g ≤ seaTotal g := by
  unfold combinedSeaCount seaTotal
  refine Finset.sum_le_sum fun i _ => Finset.sum_le_sum fun j _ => ?_
  split_ifs with h1 h2 <;> simp_all

theorem CITIES_weight_nonneg : ∀ c ∈ CITIES, (0 : ℝ) ≤ c.weight := by
  intro c hc
  simp only [CITIES, List.mem_cons, List.not_mem_nil, or_false] at hc
  rcases hc with rfl | rfl | rfl | rfl | rfl | rfl | rfl | rfl | rfl
    | rfl | rfl <;> norm_num

theorem cityScore_nonneg (systems : List DefenseSystem) :
    0 ≤ cityScore systems := by
  unfold cityScore
  refine List.sum_nonneg ?_
  intro x hx
  simp only [List.mem_map] at hx
  obtain ⟨c, hc, rfl⟩ := hx
  split_ifs
  · exact CITIES_weight_nonneg c hc
  · exact le_refl 0

theorem cityScore_le (systems : List DefenseSystem) :
    cityScore systems ≤ totalCityWeight := by
  unfold cityScore totalCityWeight
  refine List.sum_le_sum ?_
  intro c hc
  split_ifs
  · exact le_refl _
  · exact CITIES_weight_nonneg c hc

theorem ratio_bounds {num den : ℕ} (h : num ≤ den) :
    0 ≤ (if 0 < den then (num : ℝ) / (den : ℝ) * 100 else 0)
    ∧ (if 0 < den then (num : ℝ) / (den : ℝ) * 100 else 0) ≤ 100 := by
  split_ifs with hd
  · have hd' : (0 : ℝ) < den := by exact_mod_cast hd
    have hle : (num : ℝ) / den ≤ 1 := by
      rw [div_le_one hd']
      exact_mod_cast h
    have h0 : (0 : ℝ) ≤ (num : ℝ) / den := by positivity
    constructor <;> nlinarith
  · norm_num

theorem ratio_bounds_real {num den : ℝ} (h0 : 0 ≤ num) (h : num ≤ den) :
    0 ≤ (if 0 < den then num / den * 100 else 0)
    ∧ (if 0 < den then num / den * 100 else 0) ≤ 100 := by
  split_ifs with hd
  · have hle : num / den ≤ 1 := by
      rw [div_le_one hd]
      exact h
    have hnn : 0 ≤ num / den := div_nonneg h0 hd.le
    constructor <;> nlinarith
  · norm_num

/-- C7 (confirmed): every percentage field of the coverage result lies in
`[0, 100]` for every unit set and every (possibly missing) region, and
each field is exactly `0` when its denominator (land points, sea points,
total city weight) is `0`: no division fault propagates. -/
theorem calculateScores_percentages (systems : List DefenseSystem)
    (geoData : Option GeoData) :
    (0 ≤ (calculateScores systems geoData).combinedLand
      ∧ (calculateScores systems geoData).combinedLand ≤ 100
      ∧ 0 ≤ (calculateScores systems geoData).combinedCities
      ∧ (calculateScores systems geoData).combinedCities ≤ 100
      ∧ 0 ≤ (calculateScores systems geoData).combinedSea
      ∧ (calculateScores systems geoData).combinedSea ≤ 100
      ∧ 0 ≤ (calculateScores systems geoData).radarLand
      ∧ (calculateScores systems geoData).radarLand ≤ 100
      ∧ 0 ≤ (calculateScores systems geoData).attackLand
      ∧ (calculateScores systems geoData).attackLand ≤ 100)
    ∧ (∀ g : GeoData, geoData = some g →
        (landTotal g = 0 →
          (calculateScores systems geoData).combinedLand = 0
          ∧ (calculateScores systems geoData).radarLand = 0
          ∧ (calculateScores systems geoData).attackLand = 0)
        ∧ (seaTotal g = 0 →
            (calculateScores systems geoData).combinedSea = 0)
        ∧ (totalCityWeight = 0 →
            (calculateScores systems geoData).combinedCities = 0)) := by
  cases geoData with
  | none =>
    refine ⟨?_, ?_⟩
    · simp [calculateScores]
    · intro g hg
      exact absurd hg (by simp)
  | some g =>
    constructor
    · simp only [calculateScores]
      obtain ⟨a1, a2⟩ := ratio_bounds (combinedLandCount_le systems g)
      obtain ⟨b1, b2⟩ := ratio_bounds_real (cityScore_nonneg systems)
        (cityScore_le systems)
      obtain ⟨c1, c2⟩ := ratio_bounds (combinedSeaCount_le systems g)
      obtain ⟨d1, d2⟩ := ratio_bounds (radarLandCount_le systems g)
      obtain ⟨e1, e2⟩ := ratio_bounds (attackLandCount_le systems g)
      exact ⟨a1, a2, b1, b2, c1, c2, d1, d2, e1, e2⟩
    · intro g0 hg
      obtain rfl : g = g0 := Option.some.inj hg
      refine ⟨?_, ?_, ?_⟩
      · intro h0
        refine ⟨?_, ?_, ?_⟩ <;> simp [calculateScores, h0]
      · intro h0
        simp [calculateScores, h0]
      · intro h0
        simp [calculateScores, h0]

/-- Witness for `calculateScores_percentages`: with no region data the
fields are all zero; with region data whose feature list is empty every
grid point is sea, the land denominator is `0`, and the land metrics are
all `0`. -/
theorem calculateScores_percentages_witness :
    landTotal [] = 0
    ∧ (calculateScores [] (some [])).radarLand = 0
    ∧ 0 ≤ (calculateScores [] (some [])).combinedSea := by
  have hland : landTotal [] = 0 := by
    unfold landTotal
    refine Finset.sum_eq_zero fun i _ => Finset.sum_eq_zero fun j _ => ?_
    simp [isLandAt, isInsideCountry]
  refine ⟨hland, ?_, ?_⟩
  · exact ((calculateScores_percentages [] (some [])).2 [] rfl).1 hland |>.2.1
  · exact (calculateScores_percentages [] (some [])).1.2.2.2.2.1

end ScoreLemmas

section MetricSemantics

open scoped Classical

theorem landTotal_card (g : GeoData) :
    landTotal g
      = ((Finset.range gridSize ×ˢ Finset.range gridSize).filter
          (fun q => isLandAt g q.1 q.2)).card := by
  rw [Finset.card_filter, Finset.sum_product]
  unfold landTotal
  exact Finset.sum_congr rfl fun i _ => Finset.sum_congr rfl fun j _ =>
    if_congr Iff.rfl rfl rfl

theorem radarLandCount_card (systems : List DefenseSystem) (g : GeoData) :
    radarLandCount systems g
      = ((Finset.range gridSize ×ˢ Finset.range gridSize).filter
          (fun q => isLandAt g q.1 q.2
            ∧ coveredBy (activeRadars systems) (samplePoint q.1 q.2))).card := by
  rw [Finset.card_filter, Finset.sum_product]
  unfold radarLandCount
  exact Finset.sum_congr rfl fun i _ => Finset.sum_congr rfl fun j _ =>
    if_congr Iff.rfl rfl rfl

theorem attackLandCount_card (systems : List DefenseSystem) (g : GeoData) :
    attackLandCount systems g
      = ((Finset.range gridSize ×ˢ Finset.range gridSize).filter
          (fun q => isLandAt g q.1 q.2
            ∧ coveredBy (activeInterceptors systems)
                (samplePoint q.1 q.2))).card := by
  rw [Finset.card_filter, Finset.sum_product]
  unfold attackLandCount
  exact Finset.sum_congr rfl fun i _ => Finset.sum_congr rfl fun j _ =>
    if_congr Iff.rfl rfl rfl

theorem combinedLandCount_card (systems : List DefenseSystem) (g : GeoData) :
    combinedLandCount systems g
      = ((Finset.range gridSize ×ˢ Finset.range gridSize).filter
          (fun q => isLandAt g q.1 q.2
            ∧ coveredBy (activeRadars systems) (samplePoint q.1 q.2)
            ∧ coveredBy (activeInterceptors systems)
                (samplePoint q.1 q.2))).card := by
  rw [Finset.card_filter, Finset.sum_product]
  unfold combinedLandCount
  exact Finset.sum_congr rfl fun i _ => Finset.sum_congr rfl fun j _ =>
    if_congr Iff.rfl rfl rfl

/-- C6 (amended): over land grid points the engine accumulates the number
of points with combined (radar AND interceptor) coverage, the number with
radar coverage (regardless of interceptor coverage), and the number with
interceptor coverage (regardless of radar coverage); the radar-land metric
is the percentage of land points covered by a radar — not "radar-only" —
and the interceptor-land metric the percentage covered by an interceptor. -/
theorem calculateScores_metric_semantics (systems : List DefenseSystem)
    (g : GeoData) :
    (calculateScores systems (some g)).radarLand
      = (if 0 < landTotal g
        then ((((Finset.range gridSize ×ˢ Finset.range gridSize).filter
              (fun q => isLandAt g q.1 q.2
                ∧ coveredBy (activeRadars systems)
                    (samplePoint q.1 q.2))).card : ℝ)
            / (landTotal g : ℝ) * 100)
        else 0)
    ∧ (calculateScores systems (some g)).attackLand
      = (if 0 < landTotal g
        then ((((Finset.range gridSize ×ˢ Finset.range gridSize).filter
              (fun q => isLandAt g q.1 q.2
                ∧ coveredBy (activeInterceptors systems)
                    (samplePoint q.1 q.2))).card : ℝ)
            / (landTotal g : ℝ) * 100)
        else 0)
    ∧ (calculateScores systems (some g)).combinedLand
      = (if 0 < landTotal g
        then ((((Finset.range gridSize ×ˢ Finset.range gridSize).filter
              (fun q => isLandAt g q.1 q.2
                ∧ coveredBy (activeRadars systems) (samplePoint q.1 q.2)
                ∧ coveredBy (activeInterceptors systems)
                    (samplePoint q.1 q.2))).card : ℝ)
            / (landTotal g : ℝ) * 100)
        else 0)
    ∧ landTotal g
      = ((Finset.range gridSize ×ˢ Finset.range gridSize).filter
          (fun q => isLandAt g q.1 q.2)).card := by
  refine ⟨?_, ?_, ?_, landTotal_card g⟩
  · simp only [calculateScores]
    rw [radarLandCount_card]
  · simp only [calculateScores]
    rw [attackLandCount_card]
  · simp only [calculateScores]
    rw [combinedLandCount_card]

theorem checkPolygon_bigRing (x y : ℚ) (hx1 : 70 < x) (hx2 : x < 90)
    (hy1 : 0 < y) (hy2 : y < 20) : checkPolygon x y bigRing = true := by
  have hcp : cyclicPairs bigRing
      = [((70, 0), (70, 20)), ((90, 0), (70, 0)),
         ((90, 20), (90, 0)), ((70, 20), (90, 20))] := rfl
  have E1 : edgeCross x y 70 0 70 20 = false := by
    unfold edgeCross
    have hv : ((70 : ℚ) - 70) * (y - 0) / (20 - 0) + 70 = 70 := by ring
    rw [hv, decide_eq_false (show ¬ x < 70 by linarith), Bool.and_false]
  have E2 : edgeCross x y 90 0 70 0 = false := by
    unfold edgeCross
    rw [bne_self_eq_false, Bool.false_and]
  have E3 : edgeCross x y 90 20 90 0 = true := by
    unfold edgeCross
    have hv : ((90 : ℚ) - 90) * (y - 20) / (0 - 20) + 90 = 90 := by ring
    rw [hv, decide_eq_true (show (20 : ℚ) > y by linarith),
      decide_eq_false (show ¬ ((0 : ℚ) > y) by linarith),
      decide_eq_true (show x < 90 by linarith)]
    rfl
  have E4 : edgeCross x y 70 20 90 20 = false := by
    unfold edgeCross
    rw [bne_self_eq_false, Bool.false_and]
  unfold checkPolygon
  rw [hcp]
  simp [E1, E2, E3, E4]

theorem sampleLat_bounds (i : ℕ) (hi : i < gridSize) :
    0 < sampleLat i ∧ sampleLat i < 20 := by
  have hi' : (i : ℚ) < 60 := by
    have h60 : i < 60 := by rwa [gridSize_eq] at hi
    exact_mod_cast h60
  have hi0 : (0 : ℚ) ≤ (i : ℚ) := Nat.cast_nonneg i
  have hstep : latStep = 41 / 600 := by
    rw [latStep, gridSize_eq]
    norm_num [SL_maxLat, SL_minLat]
  unfold sampleLat
  rw [hstep]
  simp only [SL_minLat]
  constructor
  · nlinarith
  · nlinarith

theorem sampleLng_bounds (j : ℕ) (hj : j < gridSize) :
    70 < sampleLng j ∧ sampleLng j < 90 := by
  have hj' : (j : ℚ) < 60 := by
    have h60 : j < 60 := by rwa [gridSize_eq] at hj
    exact_mod_cast h60
  have hj0 : (0 : ℚ) ≤ (j : ℚ) := Nat.cast_nonneg j
  have hstep : lngStep = 1 / 24 := by
    rw [lngStep, gridSize_eq]
    norm_num [SL_maxLng, SL_minLng]
  unfold sampleLng
  rw [hstep]
  simp only [SL_minLng]
  constructor
  · nlinarith
  · nlinarith

theorem isLandAt_bigGeo (i j : ℕ) (hi : i < gridSize) (hj : j < gridSize) :
    isLandAt bigGeo i j = true := by
  obtain ⟨hy1, hy2⟩ := sampleLat_bounds i hi
  obtain ⟨hx1, hx2⟩ := sampleLng_bounds j hj
  have hc := checkPolygon_bigRing (sampleLng j) (sampleLat i) hx1 hx2 hy1 hy2
  simp [isLandAt, isInsideCountry, bigGeo, featureToggle, firstRing, hc]

theorem distanceTo_km_le_big (p q : LatLng) :
    distanceTo p q / 1000 ≤ 1000000000 := by
  have h := distanceTo_le_R_pi p q
  have hpi := Real.pi_le_four
  have hR : EARTH_R = 6371000 := rfl
  rw [hR] at h
  rw [div_le_iff (by norm_num : (0 : ℝ) < 1000)]
  nlinarith

theorem bigRadar_covers (p : LatLng) : coveredBy [bigRadar] p := by
  refine ⟨bigRadar, by simp, ?_⟩
  exact distanceTo_km_le_big p ⟨bigRadar.lat, bigRadar.lng⟩

theorem bigInterceptor_covers (p : LatLng) : coveredBy [bigInterceptor] p := by
  refine ⟨bigInterceptor, by simp, ?_⟩
  exact distanceTo_km_le_big p ⟨bigInterceptor.lat, bigInterceptor.lng⟩

theorem activeRadars_big :
    activeRadars [bigRadar, bigInterceptor] = [bigRadar] := by
  simp [activeRadars, List.filter, bigRadar, bigInterceptor]

theorem activeInterceptors_big :
    activeInterceptors [bigRadar, bigInterceptor] = [bigInterceptor] := by
  simp [activeInterceptors, List.filter, bigRadar, bigInterceptor]

/-- C6 (counterexample): with one all-covering radar and one all-covering
interceptor over an all-land region, every land point is covered by both,
so the number of "radar-only" land points is `0` — the claimed semantics
would give a radar-land metric of `0` — yet `calculateScores` reports
`100`, because the code counts radar coverage regardless of interceptor
coverage. -/
theorem radarLand_not_radar_only_cex :
    (calculateScores [bigRadar, bigInterceptor] (some bigGeo)).radarLand
        = 100
    ∧ (∑ i ∈ Finset.range gridSize, ∑ j ∈ Finset.range gridSize,
        if isLandAt bigGeo i j
            ∧ coveredBy (activeRadars [bigRadar, bigInterceptor])
                (samplePoint i j)
            ∧ ¬ coveredBy (activeInterceptors [bigRadar, bigInterceptor])
                (samplePoint i j)
        then 1 else 0) = (0 : ℕ) := by
  have hlt : landTotal bigGeo = 3600 := by
    unfold landTotal
    trans (∑ i ∈ Finset.range gridSize, ∑ j ∈ Finset.range gridSize, 1)
    · refine Finset.sum_congr rfl fun i hi => Finset.sum_congr rfl fun j hj => ?_
      rw [if_pos (isLandAt_bigGeo i j (Finset.mem_range.mp hi)
        (Finset.mem_range.mp hj))]
    · simp [gridSize_eq]
  have hrc : radarLandCount [bigRadar, bigInterceptor] bigGeo = 3600 := by
    unfold radarLandCount
    trans (∑ i ∈ Finset.range gridSize, ∑ j ∈ Finset.range gridSize, 1)
    · refine Finset.sum_congr rfl fun i hi => Finset.sum_congr rfl fun j hj => ?_
      refine if_pos ⟨isLandAt_bigGeo i j (Finset.mem_range.mp hi)
        (Finset.mem_range.mp hj), ?_⟩
      rw [activeRadars_big]
      exact bigRadar_covers _
    · simp [gridSize_eq]
  constructor
  · simp only [calculateScores]
    rw [hlt, hrc]
    norm_num
  · refine Finset.sum_eq_zero fun i _ => Finset.sum_eq_zero fun j _ => ?_
    refine if_neg fun hcond => hcond.2.2 ?_
    rw [activeInterceptors_big]
    exact bigInterceptor_covers _

end MetricSemantics

/-! ## C8: the deployment mutation operator -/

section MutationLemmas

open scoped Classical

theorem perturbUnit_in_box (sys : DefenseSystem) (f : Bool) (r1 r2 : ℝ) :
    ((SL_minLat : ℚ) : ℝ) ≤ (perturbUnit sys f r1 r2).lat
    ∧ (perturbUnit sys f r1 r2).lat ≤ ((SL_maxLat : ℚ) : ℝ)
    ∧ ((SL_minLng : ℚ) : ℝ) ≤ (perturbUnit sys f r1 r2).lng
    ∧ (perturbUnit sys f r1 r2).lng ≤ ((SL_maxLng : ℚ) : ℝ) := by
  have hlat : ((SL_minLat : ℚ) : ℝ) ≤ ((SL_maxLat : ℚ) : ℝ) := by
    norm_num [SL_minLat, SL_maxLat]
  have hlng : ((SL_minLng : ℚ) : ℝ) ≤ ((SL_maxLng : ℚ) : ℝ) := by
    norm_num [SL_minLng, SL_maxLng]
  simp only [perturbUnit]
  exact ⟨le_max_left _ _, max_le hlat (min_le_left _ _),
    le_max_left _ _, max_le hlng (min_le_left _ _)⟩

theorem mutateUnit_cases (radarSecured forceHighEntropy : Bool)
    (rng : ℕ → ℝ) (sys : DefenseSystem) (idx : ℕ)
    (hrng : ∀ n, 0 ≤ rng n ∧ rng n < 1) :
    (mutateUnit radarSecured forceHighEntropy rng sys idx).1 = sys
    ∨ (((SL_minLat : ℚ) : ℝ)
          ≤ (mutateUnit radarSecured forceHighEntropy rng sys idx).1.lat
      ∧ (mutateUnit radarSecured forceHighEntropy rng sys idx).1.lat
          ≤ ((SL_maxLat : ℚ) : ℝ)
      ∧ ((SL_minLng : ℚ) : ℝ)
          ≤ (mutateUnit radarSecured forceHighEntropy rng sys idx).1.lng
      ∧ (mutateUnit radarSecured forceHighEntropy rng sys idx).1.lng
          ≤ ((SL_maxLng : ℚ) : ℝ)) := by
  have cminlat : ((SL_minLat : ℚ) : ℝ) = 5.8 := by norm_num [SL_minLat]
  have cmaxlat : ((SL_maxLat : ℚ) : ℝ) = 9.9 := by norm_num [SL_maxLat]
  have cminlng : ((SL_minLng : ℚ) : ℝ) = 79.5 := by norm_num [SL_minLng]
  have cmaxlng : ((SL_maxLng : ℚ) : ℝ) = 82 := by norm_num [SL_maxLng]
  unfold mutateUnit
  by_cases hA : forceHighEntropy = false ∧ radarSecured = true
      ∧ sys.role = Role.RADAR
  · rw [if_pos hA]
    exact Or.inl rfl
  · rw [if_neg hA]
    dsimp only
    by_cases hcoin : rng idx > (if forceHighEntropy then (0.45 : ℝ) else 0.25)
    · rw [if_pos hcoin]
      exact Or.inl rfl
    · rw [if_neg hcoin]
      by_cases hforce : forceHighEntropy = true
      · rw [if_pos hforce]
        by_cases hrel : rng (idx + 1) < 0.08
        · rw [if_pos hrel]
          right
          obtain ⟨ha0, ha1⟩ := hrng (idx + 2)
          obtain ⟨hb0, hb1⟩ := hrng (idx + 3)
          dsimp only
          rw [cminlat, cmaxlat, cminlng, cmaxlng]
          refine ⟨by nlinarith, by nlinarith, by nlinarith, by nlinarith⟩
        · rw [if_neg hrel]
          exact Or.inr (perturbUnit_in_box sys forceHighEntropy
            (rng (idx + 2)) (rng (idx + 3)))
      · rw [if_neg hforce]
        exact Or.inr (perturbUnit_in_box sys forceHighEntropy
          (rng (idx + 1)) (rng (idx + 2)))

/-- C8 (amended): the mutation operator preserves the layout length, and
every output unit either equals the corresponding input unit (the
unmutated branches copy the unit unchanged, wherever it sits) or has its
position inside the bounding box; an input positioned outside the box can
therefore come back outside it unchanged, but every position the operator
itself writes is inside. -/
theorem mutateDeployment_spec (baseSystems : List DefenseSystem)
    (radarSecured : Bool) (geoData : Option GeoData)
    (placementStrategy : String) (forceHighEntropy : Bool) (rng : ℕ → ℝ)
    (hrng : ∀ n, 0 ≤ rng n ∧ rng n < 1) :
    (mutateDeployment baseSystems radarSecured geoData placementStrategy
        forceHighEntropy rng).length = baseSystems.length
    ∧ List.Forall₂ (fun (o b : DefenseSystem) =>
        o = b
        ∨ (((SL_minLat : ℚ) : ℝ) ≤ o.lat ∧ o.lat ≤ ((SL_maxLat : ℚ) : ℝ)
          ∧ ((SL_minLng : ℚ) : ℝ) ≤ o.lng
          ∧ o.lng ≤ ((SL_maxLng : ℚ) : ℝ)))
      (mutateDeployment baseSystems radarSecured geoData placementStrategy
        forceHighEntropy rng)
      baseSystems := by
  suffices h : ∀ (l : List DefenseSystem) (idx : ℕ),
      (mutateGo radarSecured forceHighEntropy rng l idx).length = l.length
      ∧ List.Forall₂ (fun (o b : DefenseSystem) =>
          o = b
          ∨ (((SL_minLat : ℚ) : ℝ) ≤ o.lat ∧ o.lat ≤ ((SL_maxLat : ℚ) : ℝ)
            ∧ ((SL_minLng : ℚ) : ℝ) ≤ o.lng
            ∧ o.lng ≤ ((SL_maxLng : ℚ) : ℝ)))
        (mutateGo radarSecured forceHighEntropy rng l idx) l by
    exact h baseSystems 0
  intro l
  induction l with
  | nil => intro idx; exact ⟨rfl, List.Forall₂.nil⟩
  | cons sys rest ih =>
    intro idx
    constructor
    · simp only [mutateGo, List.length_cons]
      rw [(ih _).1]
    · exact List.Forall₂.cons
        (by
          rcases mutateUnit_cases radarSecured forceHighEntropy rng sys idx
              hrng with h | h
          · exact Or.inl h
          · exact Or.inr h)
        (ih _).2

/-- Witness for `mutateDeployment_spec` with a constant half stream. -/
theorem mutateDeployment_spec_witness :
    (mutateDeployment [uOut] false none "inside" false
        (fun _ => (1 / 2 : ℝ))).length = [uOut].length
    ∧ List.Forall₂ (fun (o b : DefenseSystem) =>
        o = b
        ∨ (((SL_minLat : ℚ) : ℝ) ≤ o.lat ∧ o.lat ≤ ((SL_maxLat : ℚ) : ℝ)
          ∧ ((SL_minLng : ℚ) : ℝ) ≤ o.lng
          ∧ o.lng ≤ ((SL_maxLng : ℚ) : ℝ)))
      (mutateDeployment [uOut] false none "inside" false
        (fun _ => (1 / 2 : ℝ)))
      [uOut] :=
  mutateDeployment_spec [uOut] false none "inside" false
    (fun _ => (1 / 2 : ℝ)) (fun n => ⟨by norm_num, by norm_num⟩)

/-- C8 (counterexample): an input unit far outside the bounding box is
returned unchanged when its mutation coin flip fails (stream value 0.9 >
mutation chance 0.25), so the output layout contains a position outside
the box, refuting "every output position lies within the bounding box". -/
theorem mutateDeployment_out_of_box_cex :
    mutateDeployment [uOut] false none "inside" false (fun _ => (0.9 : ℝ))
        = [uOut]
    ∧ (mutateDeployment [uOut] false none "inside" false
        (fun _ => (0.9 : ℝ))).length = 1
    ∧ ¬ (uOut.lat ≤ ((SL_maxLat : ℚ) : ℝ)) := by
  have hone : mutateUnit false false (fun _ => (0.9 : ℝ)) uOut 0
      = (uOut, 1) := by
    unfold mutateUnit
    rw [if_neg (by simp)]
    rw [if_pos (by norm_num)]
  have hmd : mutateDeployment [uOut] false none "inside" false
      (fun _ => (0.9 : ℝ)) = [uOut] := by
    unfold mutateDeployment mutateGo
    rw [hone]
    rfl
  refine ⟨hmd, by rw [hmd]; rfl, ?_⟩
  norm_num [uOut, SL_maxLat]

end MutationLemmas

/-! ## C9: batch evaluator totals -/

section BatchLemmas

open scoped Classical

theorem batchTrialStep_counts (systems : List DefenseSystem) (speedMod : ℝ)
    (rng : ℕ → ℝ) (st : BatchState) :
    (batchTrialStep systems speedMod rng st).totalLaunched
        = st.totalLaunched + 1
    ∧ (batchTrialStep systems speedMod rng st).interceptedCount
        + (batchTrialStep systems speedMod rng st).impactedCount
      = st.interceptedCount + st.impactedCount + 1 := by
  unfold batchTrialStep
  dsimp only
  split_ifs with h1 h2 <;> exact ⟨rfl, by dsimp only; omega⟩

theorem batchInner_counts (systems : List DefenseSystem) (speedMod : ℝ)
    (rng : ℕ → ℝ) :
    ∀ (m : ℕ) (st : BatchState),
      (batchInner systems speedMod rng m st).totalLaunched
          = st.totalLaunched + m
      ∧ (batchInner systems speedMod rng m st).interceptedCount
          + (batchInner systems speedMod rng m st).impactedCount
        = st.interceptedCount + st.impactedCount + m := by
  intro m
  induction m with
  | zero => intro st; exact ⟨rfl, rfl⟩
  | succ m ih =>
    intro st
    have hstep := batchTrialStep_counts systems speedMod rng st
    have hrec := ih (batchTrialStep systems speedMod rng st)
    refine ⟨?_, ?_⟩
    · show (batchInner systems speedMod rng m
          (batchTrialStep systems speedMod rng st)).totalLaunched = _
      omega
    · show (batchInner systems speedMod rng m
            (batchTrialStep systems speedMod rng st)).interceptedCount
          + (batchInner systems speedMod rng m
              (batchTrialStep systems speedMod rng st)).impactedCount = _
      omega

theorem batchOuter_counts (systems : List DefenseSystem) (speedMod : ℝ)
    (rng : ℕ → ℝ) (missilesPerRound : ℕ) :
    ∀ (r : ℕ) (st : BatchState),
      (batchOuter systems speedMod rng missilesPerRound r st).totalLaunched
          = st.totalLaunched + r * missilesPerRound
      ∧ (batchOuter systems speedMod rng missilesPerRound r
            st).interceptedCount
          + (batchOuter systems speedMod rng missilesPerRound
              r st).impactedCount
        = st.interceptedCount + st.impactedCount + r * missilesPerRound := by
  intro r
  induction r with
  | zero => intro st; exact ⟨by simp [batchOuter], by simp [batchOuter]⟩
  | succ r ih =>
    intro st
    have hinner := batchInner_counts systems speedMod rng missilesPerRound st
    have hrec := ih (batchInner systems speedMod rng missilesPerRound st)
    have hmul : (r + 1) * missilesPerRound
        = r * missilesPerRound + missilesPerRound := by ring
    refine ⟨?_, ?_⟩
    · show (batchOuter systems speedMod rng missilesPerRound r
          (batchInner systems speedMod rng missilesPerRound st)).totalLaunched = _
      omega
    · show (batchOuter systems speedMod rng missilesPerRound r
            (batchInner systems speedMod rng missilesPerRound
              st)).interceptedCount
          + (batchOuter systems speedMod rng missilesPerRound r
              (batchInner systems speedMod rng missilesPerRound
                st)).impactedCount = _
      omega

/-- C9 (confirmed): for every parameter set, system list and random
stream, the batch evaluator launches exactly `rounds × missilesPerRound`
synthetic trials, and every trial resolves to exactly one of intercepted
or impacted, so the two counters sum to the launched total. -/
theorem runBatchTest_totals (rounds missilesPerRound : ℕ)
    (systems : List DefenseSystem) (speedMod : ℝ) (rng : ℕ → ℝ) :
    (runBatchTest rounds missilesPerRound systems speedMod rng).totalLaunched
        = rounds * missilesPerRound
    ∧ (runBatchTest rounds missilesPerRound systems speedMod
          rng).interceptedCount
        + (runBatchTest rounds missilesPerRound systems speedMod
            rng).impactedCount
      = (runBatchTest rounds missilesPerRound systems speedMod
          rng).totalLaunched := by
  have h := batchOuter_counts systems speedMod rng missilesPerRound rounds
    ⟨0, 0, 0, 0, 0⟩
  dsimp only at h
  unfold runBatchTest
  refine ⟨?_, ?_⟩ <;> omega

end BatchLemmas

end NDG
